import Mathlib

/-!
Shallow embedding of the rust-math-parser pipeline (lexer, parser, evaluator)
translated from the repository sources under src/.

Modelling conventions:
- `i64` is modelled as `Int` together with explicit bound checks mirroring
  `checked_add` / `checked_sub` / `checked_mul`.
- `f64` is modelled as `ℚ` with exact arithmetic.  Rounding is not modelled;
  no claim under scrutiny depends on a rounded double value.  `f64::powf` is
  modelled exactly for integer exponents (the only exponents any claim uses).
- Byte positions of the Rust lexer are modelled as character positions.  The
  two agree on every ASCII input; all inputs evaluated in the theorems below
  are ASCII.
- `HashMap` is modelled as an association list where insertion conses and
  lookup takes the first match, which is observationally the insert/lookup
  behaviour of `HashMap`.
- `crate::error::error`, which prints a message and exits the process, is
  modelled by the distinguished outcome `EvalFail.abort`, kept separate from
  returned `RuntimeError` values (`EvalFail.runtime`).  Rust panics
  (slice out of bounds, `unreachable!`, `expect`) are modelled by
  `LexFail.panic` / `ParseFail.panic` / `EvalFail.panic`.
- Loops and recursive descent are modelled with an explicit fuel parameter;
  fuel exhaustion is a distinguished outcome that none of the concrete
  computations below reaches (all theorems compute actual results).
- Host stdout is modelled as an accumulated `String`, host stdin as a list of
  pending lines.  The transcendental `f64::sin` / `f64::cos` are not exactly
  representable; they are modelled by a fixed stand-in function.  No claim
  depends on printed float text or on sin/cos values, only on registry
  membership of the native names.
-/

namespace MathParser

/-! ### Lexer data model (src/lexer.rs) -/

inductive NumeralType
  | integer
  | float
deriving DecidableEq

inductive CompOperatorSubtype
  | eq
  | neq
  | gt
  | lt
  | gte
  | lte
deriving DecidableEq

inductive AdditiveOperatorSubtype
  | add
  | sub
deriving DecidableEq

inductive MultiplicativeOperatorSubtype
  | mul
  | div
deriving DecidableEq

inductive UnaryOperatorSubtype
  | min
  | not
deriving DecidableEq

/-- Operator categories of src/lexer.rs.  Note: src/interpreter/core.rs also
mentions a `Boolean` operator subtype for lazy and/or, but the snapshot's
`OperatorType` in src/lexer.rs defines no such variant and the lexer produces
no token for it, so those evaluator arms are unreachable for every lexable
program and are not part of the embedding. -/
inductive OperatorType
  | additive (s : AdditiveOperatorSubtype)
  | multiplicative (s : MultiplicativeOperatorSubtype)
  | exponential
  | comp (s : CompOperatorSubtype)
  | unary (s : UnaryOperatorSubtype)
deriving DecidableEq

/-- Token kinds of src/lexer.rs.  `ret` stands for the source's `Return`
variant (`return` is reserved in Lean). -/
inductive TokenType
  | operator
  | numeralLiteral (n : NumeralType)
  | booleanLiteral
  | parenthesisL
  | parenthesisR
  | declaration
  | functionDeclaration
  | symbol
  | assignment
  | endOfStatement
  | argumentSeparator
  | stringLiteral
  | conditionalIf
  | conditionalElse
  | blockStart
  | blockEnd
  | ret
  | eof
deriving DecidableEq

/-- The `ToString` impl for `TokenType` in src/lexer.rs (used in parser error
messages).  Note the source quirk: the variant is named `EndOfstatement` but
prints as "EndOfStatement". -/
def TokenType.to_string : TokenType → String
  | .operator => "Operator"
  | .numeralLiteral _ => "NumeralLiteral"
  | .booleanLiteral => "BooleanLiteral"
  | .parenthesisL => "ParenthesisL"
  | .parenthesisR => "ParenthesisR"
  | .declaration => "Declaration"
  | .functionDeclaration => "FunctionDeclaration"
  | .symbol => "Symbol"
  | .assignment => "Assignment"
  | .endOfStatement => "EndOfStatement"
  | .argumentSeparator => "ArgumentSeparator"
  | .stringLiteral => "StringLiteral"
  | .conditionalIf => "ConditionalIf"
  | .conditionalElse => "ConditionalElse"
  | .blockStart => "BlockStart"
  | .blockEnd => "BlockEnd"
  | .ret => "Return"
  | .eof => "Eof"

/-- A lexer token.  `stop` is the source's `end` field (`end` is reserved in
Lean). -/
structure Token where
  start : Nat
  stop : Nat
  line : Nat
  token_type : TokenType
  operator_type : Option OperatorType
  value : Option String
deriving DecidableEq

/-- `Token::operator_predecende` from src/lexer.rs lines 106-116: precedence
and right-associativity of a binary operator token. -/
def Token.operator_predecende (t : Token) : Int × Bool :=
  match t.operator_type with
  | some (.additive _) => (1, false)
  | some (.multiplicative _) => (2, false)
  | some .exponential => (3, true)
  | some (.comp _) => (4, false)
  | some (.unary _) => (1, false)
  | none => (1, false)

/-! ### Lexer errors (src/lexer_errors.rs) -/

inductive LexerInvalidTokenKind
  | malformedNumberLiteral (s : String)
  | unexpectedToken (s : String)
  | unexpectedEOF
  | custom (s : String)
deriving DecidableEq

structure LexerInvalidTokenError where
  kind : LexerInvalidTokenKind
  line : Nat
  column : Nat
deriving DecidableEq

/-- Outcome of the lexer beyond a successful token list: a structured lexer
error, a Rust panic (the source can panic on an out-of-range string slice), or
model-fuel exhaustion (never reached by the computations below). -/
inductive LexFail
  | err (e : LexerInvalidTokenError)
  | panic (msg : String)
  | fuel
deriving DecidableEq

/-! ### Lexer state and helpers (src/lexer.rs `TokenParser`) -/

structure TokenParserState where
  pos : Nat
  column : Nat
  line : Nat
  program : List Char
deriving DecidableEq

def TokenParserState.peekC (st : TokenParserState) : Option Char :=
  st.program.get? st.pos

def TokenParserState.peek_with_offset (st : TokenParserState) (n : Nat) : Option Char :=
  st.program.get? (st.pos + n)

/-- `TokenParser::digest`: consume one character, updating position, line and
column.  The source unwraps (panics) when called at end of input; it is only
ever called after a successful peek, so the `none` case below is dead code and
returns the state unchanged. -/
def TokenParserState.digest (st : TokenParserState) : Char × TokenParserState :=
  match st.program.get? st.pos with
  | none => (Char.ofNat 0, st)
  | some c =>
    if c = '\n' then
      (c, { st with pos := st.pos + 1, line := st.line + 1, column := 1 })
    else
      (c, { st with pos := st.pos + 1, column := st.column + 1 })

/-- `TokenParser::slice_to_string`: the program text from `start` to the
current position. -/
def TokenParserState.slice_to_string (st : TokenParserState) (start : Nat) : String :=
  String.mk ((st.program.drop start).take (st.pos - start))

/-- `TokenParser::slice_range_to_string` over an explicit range. -/
def TokenParserState.slice_range_to_string (st : TokenParserState) (start stop : Nat) : String :=
  String.mk ((st.program.drop start).take (stop - start))

/-- The comment loop of `TokenParser::parse`: digest characters up to and
including the next newline, or to end of input. -/
def comment_loop : Nat → TokenParserState → TokenParserState
  | 0, st => st
  | fuelN + 1, st =>
    match st.peekC with
    | none => st
    | some ch =>
      let st1 := (st.digest).2
      if ch = '\n' then st1 else comment_loop fuelN st1

/-- The string-literal loop of `TokenParser::parse`: digest characters up to
and including the next double quote, or to end of input (the source performs
no end-of-input check here). -/
def string_loop : Nat → TokenParserState → TokenParserState
  | 0, st => st
  | fuelN + 1, st =>
    match st.peekC with
    | none => st
    | some ch =>
      let st1 := (st.digest).2
      if ch = '\x22' then st1 else string_loop fuelN st1

/-- The identifier loop of `TokenParser::parse`: digest ASCII alphanumeric
characters and underscores. -/
def ident_loop : Nat → TokenParserState → TokenParserState
  | 0, st => st
  | fuelN + 1, st =>
    match st.peekC with
    | none => st
    | some ch =>
      if ¬ (ch.isAlphanum ∨ ch = '_') then st
      else ident_loop fuelN (st.digest).2

/-- The numeric-literal loop of `TokenParser::parse`: digits, at most one
dot; a second dot is a `MalformedNumberLiteral` error carrying the current
line and column. -/
def number_loop : Nat → TokenParserState → Bool → Nat →
    Except LexFail (TokenParserState × Bool)
  | 0, st, is_float, _ => .ok (st, is_float)
  | fuelN + 1, st, is_float, start =>
    match st.peekC with
    | none => .ok (st, is_float)
    | some ch =>
      if ch.isDigit then number_loop fuelN (st.digest).2 is_float start
      else if ch = '.' ∧ ¬ is_float then number_loop fuelN (st.digest).2 true start
      else if ch = '.' then
        .error (.err { kind := .malformedNumberLiteral (st.slice_to_string start),
                       line := st.line, column := st.column })
      else .ok (st, is_float)

/-- One-shot token constructor helper used by the loop below (the source
builds these records inline). -/
def mkToken (start stop line : Nat) (tt : TokenType) (ot : Option OperatorType)
    (v : Option String) : Token :=
  { start := start, stop := stop, line := line, token_type := tt,
    operator_type := ot, value := v }

/-- The main loop of `TokenParser::parse` (src/lexer.rs lines 165-455),
transcribed arm by arm in source order.  Pushes an `Eof` token at end of
input. -/
def lex_loop : Nat → TokenParserState → List Token → Except LexFail (List Token)
  | 0, _, _ => .error .fuel
  | fuelN + 1, st, tokens =>
    match st.peekC with
    | none =>
      .ok (tokens ++ [mkToken st.pos st.pos st.line .eof none none])
    | some c =>
      if c = ' ' ∨ c = '\n' then
        lex_loop fuelN (st.digest).2 tokens
      else if c = '/' ∧ st.peek_with_offset 1 = some '/' then
        let st1 := ((st.digest).2.digest).2
        lex_loop fuelN (comment_loop (st1.program.length + 1) st1) tokens
      else if c = ';' then
        let start := st.pos
        let st1 := (st.digest).2
        lex_loop fuelN st1
          (tokens ++ [mkToken start st1.pos st1.line .endOfStatement none (some ";")])
      else if c = '!' ∧ st.peek_with_offset 1 = some '=' then
        let start := st.pos
        let st1 := ((st.digest).2.digest).2
        lex_loop fuelN st1
          (tokens ++ [mkToken start st1.pos st1.line .operator
            (some (.comp .neq)) (some "!=")])
      else if c = '>' then
        let start := st.pos
        let st1 := (st.digest).2
        if st1.peekC = some '=' then
          let st2 := (st1.digest).2
          lex_loop fuelN st2
            (tokens ++ [mkToken start st2.pos st2.line .operator
              (some (.comp .gte)) (some ">=")])
        else
          lex_loop fuelN st1
            (tokens ++ [mkToken start start st1.line .operator
              (some (.comp .gt)) (some ">")])
      else if c = '<' then
        let start := st.pos
        let st1 := (st.digest).2
        if st1.peekC = some '=' then
          let st2 := (st1.digest).2
          lex_loop fuelN st2
            (tokens ++ [mkToken start st2.pos st2.line .operator
              (some (.comp .lte)) (some "<=")])
        else
          lex_loop fuelN st1
            (tokens ++ [mkToken start st1.pos st1.line .operator
              (some (.comp .lt)) (some "<")])
      else if c = '=' then
        let start := st.pos
        let st1 := (st.digest).2
        if st1.peekC = some '=' then
          let st2 := (st1.digest).2
          lex_loop fuelN st2
            (tokens ++ [mkToken start st2.pos st2.line .operator
              (some (.comp .eq)) (some "==")])
        else
          lex_loop fuelN st1
            (tokens ++ [mkToken start st1.pos st1.line .assignment none (some "=")])
      else if c = '\x22' then
        let start := st.pos
        let st1 := (st.digest).2
        let st2 := string_loop (st1.program.length + 1) st1
        if st2.pos ≥ start + 2 then
          let v := st2.slice_range_to_string (start + 1) (st2.pos - 1)
          lex_loop fuelN st2
            (tokens ++ [mkToken start st2.pos st2.line .stringLiteral none (some v)])
        else
          .error (.panic "string slice starts after it ends")
      else if c.isAlpha ∨ c = '_' then
        let start := st.pos
        let st1 := (st.digest).2
        let st2 := ident_loop (st1.program.length + 1) st1
        let text := st2.slice_to_string start
        let tt : TokenType :=
          if text = "if" then .conditionalIf
          else if text = "else" then .conditionalElse
          else if text = "func" then .functionDeclaration
          else if text = "let" then .declaration
          else if text = "true" ∨ text = "false" then .booleanLiteral
          else if text = "return" then .ret
          else .symbol
        lex_loop fuelN st2
          (tokens ++ [mkToken start st2.pos st2.line tt none (some text)])
      else if c.isDigit then
        let start := st.pos
        let st1 := (st.digest).2
        match number_loop (st1.program.length + 1) st1 false start with
        | .error e => .error e
        | .ok (st2, is_float) =>
          let nt : NumeralType := if is_float then .float else .integer
          lex_loop fuelN st2
            (tokens ++ [mkToken start st2.pos st2.line (.numeralLiteral nt) none
              (some (st2.slice_to_string start))])
      else if c = '+' ∨ c = '-' ∨ c = '*' ∨ c = '/' ∨ c = '^' then
        let start := st.pos
        let st1 := (st.digest).2
        let ot : Option OperatorType :=
          if c = '+' then some (.additive .add)
          else if c = '-' then some (.additive .sub)
          else if c = '*' then some (.multiplicative .mul)
          else if c = '/' then some (.multiplicative .div)
          else if c = '^' then some .exponential
          else none
        lex_loop fuelN st1
          (tokens ++ [mkToken start st1.pos st1.line .operator ot
            (some (st1.slice_to_string start))])
      else if c = '!' then
        let start := st.pos
        let st1 := (st.digest).2
        lex_loop fuelN st1
          (tokens ++ [mkToken start st1.pos st1.line .operator
            (some (.unary .not)) (some "!")])
      else if c = '(' ∨ c = ')' ∨ c = '\x7b' ∨ c = '\x7d' ∨ c = ',' then
        let start := st.pos
        let st1 := (st.digest).2
        let tt : TokenType :=
          if c = '(' then .parenthesisL
          else if c = ')' then .parenthesisR
          else if c = '\x7b' then .blockStart
          else if c = '\x7d' then .blockEnd
          else .argumentSeparator
        lex_loop fuelN st1
          (tokens ++ [mkToken start st1.pos st1.line tt none
            (some (st1.slice_to_string start))])
      else
        .error (.err { kind := .unexpectedToken (String.mk [c]),
                       line := st.line, column := st.column })

/-- `TokenParser::parse`, run from the initial cursor state. -/
def tokenize (program : String) : Except LexFail (List Token) :=
  lex_loop (program.length * 2 + 8)
    { pos := 0, column := 1, line := 1, program := program.data } []

/-! ### AST (src/node.rs) -/

structure Identifier where
  name : String
deriving DecidableEq

inductive Literal
  | boolean (b : Bool)
  | integer (i : Int)
  | float (q : ℚ)
  | string (s : String)

/-- The `Expression` sum type of src/node.rs.  The call node is named
`MethodCall` in src/node.rs and `FunctionCall` in src/interpreter/core.rs; it
is one and the same node and is called `functionCall` here.  `ret` is the
source's `Return` variant; `blockExpr` its `Block` variant. -/
inductive Expression
  | literal (l : Literal)
  | binaryOperation (left : Expression) (op : OperatorType) (right : Expression)
  | unaryOperation (op : OperatorType) (operand : Expression)
  | program (body : List Expression)
  | statement (e : Expression)
  | functionCall (id : Identifier) (arguments : List Expression) (location : Nat)
  | identifier (id : Identifier)
  | declaration (id : Identifier) (e : Expression)
  | blockExpr (b : List Expression)
  | functionDeclaration (id : Identifier) (params : List Identifier)
      (body : List Expression)
  | ret (e : Expression)
  | ifConditional (cond : Expression) (if_block : List Expression)
      (else_block : Option (List Expression))

abbrev Block := List Expression

/-- The `FunctionDeclaration` record stored in scope function tables
(src/node.rs). -/
structure FunctionDeclaration where
  identifier : Identifier
  arguments : List Identifier
  block : List Expression

/-! ### Numeric literal parsing as performed by Rust `str::parse` -/

def i64_min : Int := -(2 ^ 63)

def i64_max : Int := 2 ^ 63 - 1

def digits_to_nat (l : List Char) : Nat :=
  l.foldl (fun a c => a * 10 + (c.toNat - 48)) 0

/-- Rust `"...".parse::<i64>()`: optional sign, one or more ASCII digits,
rejecting out-of-range values. -/
def rust_parse_i64 (s : String) : Option Int :=
  match s.data with
  | [] => none
  | c :: rest =>
    let (sign, digits) : Int × List Char :=
      if c = '-' then (-1, rest)
      else if c = '+' then (1, rest)
      else (1, c :: rest)
    if digits = [] ∨ ¬ digits.all Char.isDigit then none
    else
      let v : Int := sign * (digits_to_nat digits : Int)
      if i64_min ≤ v ∧ v ≤ i64_max then some v else none

/-- Kernel-reducible exact rational operations used throughout the model.
The Batteries rational operations are irreducible for the elaborator, which
blocks evaluation inside proofs; these `mkRat`-normalising versions compute,
and perform the same exact rational arithmetic. -/
def qadd (a b : ℚ) : ℚ := mkRat (a.num * b.den + b.num * a.den) (a.den * b.den)

/-- Exact rational subtraction; see `qadd`. -/
def qsub (a b : ℚ) : ℚ := mkRat (a.num * b.den - b.num * a.den) (a.den * b.den)

/-- Exact rational multiplication; see `qadd`. -/
def qmul (a b : ℚ) : ℚ := mkRat (a.num * b.num) (a.den * b.den)

/-- Exact rational division; see `qadd`.  Division by zero yields zero, as
for the library inverse (never taken: `div_value` checks first). -/
def qdiv (a b : ℚ) : ℚ :=
  let n := a.num * (b.den : Int)
  let d := (a.den : Int) * b.num
  mkRat (if d < 0 then -n else n) d.natAbs

/-- Exact rational power; see `qadd`. -/
def qpow (a : ℚ) : Nat → ℚ
  | 0 => 1
  | n + 1 => qmul (qpow a n) a

/-- Rust `"...".parse::<f64>()`, modelled exactly over ℚ for the decimal
forms `[sign] digits [ . digits ]` (also `.digits` and `digits.`).  Exponent
notation, `inf` and `NaN` are accepted by Rust but not modelled; no claim
involves them, and every string any claim feeds here is either empty (fails
in Rust and here) or plain decimal. -/
def rust_parse_f64 (s : String) : Option ℚ :=
  match s.data with
  | [] => none
  | c :: rest =>
    let (sign, cs) : ℚ × List Char :=
      if c = '-' then (mkRat (-1) 1, rest)
      else if c = '+' then (1, rest)
      else (1, c :: rest)
    let int_part := cs.takeWhile Char.isDigit
    match cs.dropWhile Char.isDigit with
    | [] =>
      if int_part = [] then none
      else some (qmul sign (digits_to_nat int_part : ℚ))
    | d :: frac =>
      if d = '.' ∧ frac.all Char.isDigit ∧ ¬ (int_part = [] ∧ frac = []) then
        some (qmul sign (qadd (digits_to_nat int_part : ℚ)
          (qdiv (digits_to_nat frac : ℚ) (qpow 10 frac.length))))
      else none

/-- Rust `"...".parse::<bool>()`. -/
def rust_parse_bool (s : String) : Option Bool :=
  if s = "true" then some true else if s = "false" then some false else none

/-! ### Parser errors (src/parser_errors.rs) -/

inductive ParserErrorKind
  | unexpectedToken (expected : String) (t : Token)
  | unrecognizedToken (t : Token)
  | unexpectedEOF
  | unexpectedEmptyValue
deriving DecidableEq

structure ParserError where
  kind : ParserErrorKind
deriving DecidableEq

/-- Parser outcome beyond success: a structured `ParserError`, a Rust panic
(from the `expect` calls in src/node.rs `build_node`), or model-fuel
exhaustion (never reached below). -/
inductive ParseFail
  | err (e : ParserError)
  | panic (msg : String)
  | fuel
deriving DecidableEq

/-! ### AST builders (src/node.rs) -/

def build_method_call_node (method_name : String) (args : List Expression)
    (location : Nat) : Expression :=
  .functionCall ⟨method_name⟩ args location

def build_numerical_literal_node (l : Literal) : Expression :=
  .literal l

def build_conditional_node (condition : Expression) (if_block : Block)
    (else_block : Option Block) : Expression :=
  .ifConditional condition if_block else_block

def build_binary_op_node (operator : OperatorType) (left right : Expression) :
    Expression :=
  .binaryOperation left operator right

def build_assignment_node (id : String) (expr : Expression) : Expression :=
  .declaration ⟨id⟩ expr

def build_return_node (expr : Expression) : Expression :=
  .ret expr

def build_function_declaration_node (id : String) (args : List String)
    (blk : Block) : Expression :=
  .functionDeclaration ⟨id⟩ (args.map fun a => ⟨a⟩) blk

def build_unary_node (operation_type : UnaryOperatorSubtype) (node : Expression) :
    Expression :=
  .unaryOperation (.unary operation_type) node

def build_program_node (body : Block) : Expression :=
  .program body

def build_statement_node (expr : Expression) : Expression :=
  .statement expr

/-- `build_node` from src/node.rs: literal / identifier / binary-operation
construction from a token, with the source's `expect` / `panic!` calls
modelled as `ParseFail.panic`. -/
def build_node (token : Token) (left right : Option Expression) :
    Except ParseFail Expression :=
  match token.value with
  | none => .error (.panic "Token value missing")
  | some v =>
    match token.token_type with
    | .numeralLiteral .integer =>
      .ok (build_numerical_literal_node (.integer ((rust_parse_i64 v).getD 0)))
    | .numeralLiteral .float =>
      .ok (build_numerical_literal_node (.float ((rust_parse_f64 v).getD 0)))
    | .stringLiteral =>
      .ok (build_numerical_literal_node (.string v))
    | .booleanLiteral =>
      .ok (build_numerical_literal_node (.boolean ((rust_parse_bool v).getD false)))
    | .operator =>
      match token.operator_type with
      | none => .error (.panic "Unexpected operator type.")
      | some ot =>
        match left, right with
        | some l, some r => .ok (build_binary_op_node ot l r)
        | _, _ => .error (.panic "operand missing")
    | .assignment =>
      match left with
      | some l => .ok (build_assignment_node v l)
      | none => .error (.panic "Left operand missing")
    | .symbol => .ok (.identifier ⟨v⟩)
    | _ => .error (.panic "Unexpected token type to process when building node.")

/-! ### Parser (src/parser.rs) -/

structure ParserState where
  pos : Nat
  tokens : List Token
deriving DecidableEq

def ParserState.peekT (st : ParserState) : Option Token :=
  st.tokens.get? st.pos

def ParserState.peek_at (st : ParserState) (p : Nat) : Option Token :=
  st.tokens.get? p

def ParserState.peek_type_is (st : ParserState) (expected : TokenType) : Bool :=
  match st.peekT with
  | some t => t.token_type = expected
  | none => false

/-- `Parser::digest`: consume the next token if it has the expected kind. -/
def ParserState.digest (st : ParserState) (expected : TokenType) :
    Except ParseFail (Token × ParserState) :=
  match st.peekT with
  | none => .error (.err ⟨.unexpectedEOF⟩)
  | some t =>
    if t.token_type = expected then .ok (t, { st with pos := st.pos + 1 })
    else .error (.err ⟨.unexpectedToken expected.to_string t⟩)

/-- `Parser::consume_statement_terminator`: `if` and `func` statements
self-terminate; everything else requires a `;`. -/
def consume_statement_terminator (stmt : Expression) (st : ParserState) :
    Except ParseFail ParserState :=
  match stmt with
  | .ifConditional _ _ _ => .ok st
  | .functionDeclaration _ _ _ => .ok st
  | _ => do
    let (_, st1) ← st.digest .endOfStatement
    .ok st1

/-- The next-precedence computation of `Parser::parse_binary_expression`
(src/parser.rs line 275): the operator's own precedence when it is
right-associative, otherwise precedence + 1. -/
def next_precedence (op_precedence : Int) (is_right : Bool) : Int :=
  if is_right then op_precedence else op_precedence + 1

/-- The mutually recursive parse routines of `Parser` are tied together
through a single fueled dispatcher (`parse_go`); each routine keeps its own
named body below, parameterized by the recursion oracle `go`.  A job names
one routine together with its extra arguments. -/
inductive ParseJob
  | blockJob
  | statementJob
  | declarationJob
  | returnJob
  | conditionalJob
  | stmtOrBlockJob
  | blockDelimJob
  | fnDeclJob
  | fnParamsJob
  | exprJob (precedence : Int)
  | methodCallJob
  | methodArgsJob
  | binExprJob (precedence : Int)
  | binLoopJob (precedence : Int) (left : Expression)
  | termJob

/-- Result of one parse routine: an expression, a statement list, or a
parameter-name list, matching the source routines' return types. -/
inductive ParseOut
  | one (e : Expression)
  | many (b : List Expression)
  | names (ns : List String)

/-- Shape extractor (an artifact of the single-dispatcher encoding; the
mismatch branch is unreachable because every job returns its own shape). -/
def ParseOut.as_one : ParseOut → Except ParseFail Expression
  | .one e => .ok e
  | _ => .error (.panic "parser result shape")

/-- Shape extractor; see `ParseOut.as_one`. -/
def ParseOut.as_many : ParseOut → Except ParseFail (List Expression)
  | .many b => .ok b
  | _ => .error (.panic "parser result shape")

/-- Shape extractor; see `ParseOut.as_one`. -/
def ParseOut.as_names : ParseOut → Except ParseFail (List String)
  | .names ns => .ok ns
  | _ => .error (.panic "parser result shape")

/-- The type of the recursion oracle threaded through the routine bodies. -/
abbrev ParseGo := ParseJob → ParserState → Except ParseFail (ParseOut × ParserState)

/-- `Parser::parse_block`: statements until `}` or end, consuming a trailing
`Eof`; each statement is wrapped by `build_statement_node`. -/
def parse_block_body (go : ParseGo) (st : ParserState) :
    Except ParseFail (ParseOut × ParserState) :=
  match st.peekT with
  | none => .ok (.many [], st)
  | some token =>
    if token.token_type = .eof then do
      let (_, st1) ← st.digest .eof
      .ok (.many [], st1)
    else if token.token_type = .blockEnd then .ok (.many [], st)
    else do
      let (stmtO, st1) ← go .statementJob st
      let stmt ← stmtO.as_one
      let st2 ← consume_statement_terminator stmt st1
      let (restO, st3) ← go .blockJob st2
      let rest ← restO.as_many
      .ok (.many (build_statement_node stmt :: rest), st3)

/-- `Parser::parse_statement`: dispatch on the next token kind. -/
def parse_statement_body (go : ParseGo) (st : ParserState) :
    Except ParseFail (ParseOut × ParserState) :=
  match st.peekT with
  | none => .error (.err ⟨.unexpectedEOF⟩)
  | some token =>
    match token.token_type with
    | .numeralLiteral _ => go (.exprJob 0) st
    | .booleanLiteral => go (.exprJob 0) st
    | .operator => go (.exprJob 0) st
    | .symbol => go (.exprJob 0) st
    | .stringLiteral => go (.exprJob 0) st
    | .declaration => go .declarationJob st
    | .functionDeclaration => go .fnDeclJob st
    | .conditionalIf => go .conditionalJob st
    | .ret => go .returnJob st
    | _ => .error (.err ⟨.unrecognizedToken token⟩)

/-- `Parser::parse_declaration`: `let Symbol = expression`. -/
def parse_declaration_body (go : ParseGo) (st : ParserState) :
    Except ParseFail (ParseOut × ParserState) := do
  let (_, st1) ← st.digest .declaration
  let (symbol, st2) ← st1.digest .symbol
  let (_, st3) ← st2.digest .assignment
  let (exprO, st4) ← go (.exprJob 0) st3
  let expr ← exprO.as_one
  match symbol.value with
  | none => .error (.err ⟨.unexpectedEOF⟩)
  | some v => .ok (.one (build_assignment_node v expr), st4)

/-- `Parser::parse_return`: `return expression`. -/
def parse_return_body (go : ParseGo) (st : ParserState) :
    Except ParseFail (ParseOut × ParserState) := do
  let (_, st1) ← st.digest .ret
  let (exprO, st2) ← go (.exprJob 0) st1
  let expr ← exprO.as_one
  .ok (.one (build_return_node expr), st2)

/-- `Parser::parse_conditional`: `if ( expression ) body [ else body ]`. -/
def parse_conditional_body (go : ParseGo) (st : ParserState) :
    Except ParseFail (ParseOut × ParserState) := do
  let (_, st1) ← st.digest .conditionalIf
  let (_, st2) ← st1.digest .parenthesisL
  let (exprO, st3) ← go (.exprJob 0) st2
  let expr ← exprO.as_one
  let (_, st4) ← st3.digest .parenthesisR
  let (ifO, st5) ← go .stmtOrBlockJob st4
  let if_block ← ifO.as_many
  if st5.peek_type_is .conditionalElse then do
    let (_, st6) ← st5.digest .conditionalElse
    let (elseO, st7) ← go .stmtOrBlockJob st6
    let else_block ← elseO.as_many
    .ok (.one (build_conditional_node expr if_block (some else_block)), st7)
  else
    .ok (.one (build_conditional_node expr if_block none), st5)

/-- `Parser::parse_statement_or_block`: the body of an `if`/`else` is either
a braced block or a single statement, which consumes its own terminator and
is not wrapped in a `Statement` node. -/
def parse_statement_or_block_body (go : ParseGo) (st : ParserState) :
    Except ParseFail (ParseOut × ParserState) :=
  if st.peek_type_is .blockStart then
    go .blockDelimJob st
  else do
    let (stmtO, st1) ← go .statementJob st
    let stmt ← stmtO.as_one
    let st2 ← consume_statement_terminator stmt st1
    .ok (.many [stmt], st2)

/-- `Parser::parse_block_with_delimiters`: `{ block }`. -/
def parse_block_with_delimiters_body (go : ParseGo) (st : ParserState) :
    Except ParseFail (ParseOut × ParserState) := do
  let (_, st1) ← st.digest .blockStart
  let (blkO, st2) ← go .blockJob st1
  let blk ← blkO.as_many
  let (_, st3) ← st2.digest .blockEnd
  .ok (.many blk, st3)

/-- `Parser::parse_function_declaration`:
`func Symbol ( [Symbol {, Symbol}] ) { block }`. -/
def parse_function_declaration_body (go : ParseGo) (st : ParserState) :
    Except ParseFail (ParseOut × ParserState) := do
  let (_, st1) ← st.digest .functionDeclaration
  let (id_tok, st2) ← st1.digest .symbol
  let (_, st3) ← st2.digest .parenthesisL
  let (argsO, st4) ← go .fnParamsJob st3
  let args ← argsO.as_names
  let (_, st5) ← st4.digest .parenthesisR
  let (blkO, st6) ← go .blockDelimJob st5
  let blk ← blkO.as_many
  match id_tok.value with
  | none => .error (.err ⟨.unexpectedEmptyValue⟩)
  | some idv => .ok (.one (build_function_declaration_node idv args blk), st6)

/-- The parameter loop inside `Parser::parse_function_declaration`. -/
def parse_fn_params_body (go : ParseGo) (st : ParserState) :
    Except ParseFail (ParseOut × ParserState) :=
  match st.peekT with
  | none => .ok (.names [], st)
  | some token =>
    if token.token_type = .parenthesisR then .ok (.names [], st)
    else do
      let (tok, st1) ← st.digest .symbol
      match tok.value with
      | none => .error (.err ⟨.unexpectedEmptyValue⟩)
      | some v =>
        match st1.peekT with
        | some next =>
          if next.token_type ≠ .parenthesisR then do
            let (_, st2) ← st1.digest .argumentSeparator
            let (restO, st3) ← go .fnParamsJob st2
            let rest ← restO.as_names
            .ok (.names (v :: rest), st3)
          else do
            let (restO, st2) ← go .fnParamsJob st1
            let rest ← restO.as_names
            .ok (.names (v :: rest), st2)
        | none => .error (.err ⟨.unexpectedEOF⟩)

/-- `Parser::parse_expression`: a `Symbol (` lookahead selects a call,
otherwise a binary expression at the given minimum precedence. -/
def parse_expression_body (go : ParseGo) (precedence : Int) (st : ParserState) :
    Except ParseFail (ParseOut × ParserState) :=
  match st.peekT with
  | none => .error (.err ⟨.unexpectedEOF⟩)
  | some token =>
    let next := st.peek_at (st.pos + 1)
    let next_is_lparen : Bool :=
      match next with
      | some t => t.token_type = .parenthesisL
      | none => false
    if token.token_type = .symbol ∧ next_is_lparen then
      go .methodCallJob st
    else
      go (.binExprJob precedence) st

/-- `Parser::parse_method_call`: `Symbol ( [args] )`, recording the name
token's line as the call location. -/
def parse_method_call_body (go : ParseGo) (st : ParserState) :
    Except ParseFail (ParseOut × ParserState) := do
  let (method_name, st1) ← st.digest .symbol
  let (_, st2) ← st1.digest .parenthesisL
  let (argsO, st3) ← go .methodArgsJob st2
  let args ← argsO.as_many
  let (_, st4) ← st3.digest .parenthesisR
  match method_name.value with
  | none => .error (.err ⟨.unexpectedEOF⟩)
  | some v => .ok (.one (build_method_call_node v args method_name.line), st4)

/-- The argument loop of `Parser::parse_method_args`. -/
def parse_method_args_body (go : ParseGo) (st : ParserState) :
    Except ParseFail (ParseOut × ParserState) :=
  match st.peekT with
  | none => .ok (.many [], st)
  | some token =>
    if token.token_type = .parenthesisR then .ok (.many [], st)
    else do
      let (eO, st1) ← go (.exprJob 0) st
      let e ← eO.as_one
      match st1.peekT with
      | some next =>
        if next.token_type ≠ .parenthesisR then do
          let (_, st2) ← st1.digest .argumentSeparator
          let (restO, st3) ← go .methodArgsJob st2
          let rest ← restO.as_many
          .ok (.many (e :: rest), st3)
        else do
          let (restO, st2) ← go .methodArgsJob st1
          let rest ← restO.as_many
          .ok (.many (e :: rest), st2)
      | none => .error (.err ⟨.unexpectedEOF⟩)

/-- `Parser::parse_binary_expression`: Pratt loop seeded by a term. -/
def parse_binary_expression_body (go : ParseGo) (precedence : Int)
    (st : ParserState) : Except ParseFail (ParseOut × ParserState) := do
  let (leftO, st1) ← go .termJob st
  let left ← leftO.as_one
  go (.binLoopJob precedence left) st1

/-- The `loop` inside `Parser::parse_binary_expression` (src/parser.rs lines
261-279): while the next token is an operator of precedence at least the
minimum, consume it, parse the right side at `next_precedence`, and fold. -/
def parse_bin_loop_body (go : ParseGo) (precedence : Int) (left : Expression)
    (st : ParserState) : Except ParseFail (ParseOut × ParserState) :=
  match st.peekT with
  | some op_token =>
    if op_token.token_type = .operator then
      let (op_precedence, is_right) := op_token.operator_predecende
      if op_precedence < precedence then .ok (.one left, st)
      else do
        let (_, st1) ← st.digest .operator
        let (rightO, st2) ← go (.exprJob (next_precedence op_precedence is_right)) st1
        let right ← rightO.as_one
        let nd ← build_node op_token (some left) (some right)
        go (.binLoopJob precedence nd) st2
    else .ok (.one left, st)
  | none => .ok (.one left, st)

/-- `Parser::parse_term`: unary minus / not, literals, identifiers and
parenthesised expressions. -/
def parse_term_body (go : ParseGo) (st : ParserState) :
    Except ParseFail (ParseOut × ParserState) :=
  match st.peekT with
  | none => .error (.err ⟨.unexpectedEOF⟩)
  | some token =>
    match token.token_type with
    | .operator =>
      match token.operator_type with
      | some (.additive .sub) => do
        let (_, st1) ← st.digest .operator
        let (litO, st2) ← go .termJob st1
        let lit ← litO.as_one
        .ok (.one (build_unary_node .min lit), st2)
      | some (.unary .not) => do
        let (_, st1) ← st.digest .operator
        let (litO, st2) ← go .termJob st1
        let lit ← litO.as_one
        .ok (.one (build_unary_node .not lit), st2)
      | _ => .error (.err ⟨.unrecognizedToken token⟩)
    | .symbol => do
      let (_, st1) ← st.digest token.token_type
      let nd ← build_node token none none
      .ok (.one nd, st1)
    | .stringLiteral => do
      let (_, st1) ← st.digest token.token_type
      let nd ← build_node token none none
      .ok (.one nd, st1)
    | .booleanLiteral => do
      let (_, st1) ← st.digest token.token_type
      let nd ← build_node token none none
      .ok (.one nd, st1)
    | .numeralLiteral _ => do
      let (_, st1) ← st.digest token.token_type
      let nd ← build_node token none none
      .ok (.one nd, st1)
    | .parenthesisL => do
      let (_, st1) ← st.digest .parenthesisL
      let (exprO, st2) ← go (.exprJob 0) st1
      let expr ← exprO.as_one
      let (_, st3) ← st2.digest .parenthesisR
      .ok (.one expr, st3)
    | _ => .error (.err ⟨.unrecognizedToken token⟩)

/-- The fueled dispatcher tying the parse routines together. -/
def parse_go : Nat → ParseJob → ParserState → Except ParseFail (ParseOut × ParserState)
  | 0, _, _ => .error .fuel
  | fuelN + 1, job, st =>
    match job with
    | .blockJob => parse_block_body (parse_go fuelN) st
    | .statementJob => parse_statement_body (parse_go fuelN) st
    | .declarationJob => parse_declaration_body (parse_go fuelN) st
    | .returnJob => parse_return_body (parse_go fuelN) st
    | .conditionalJob => parse_conditional_body (parse_go fuelN) st
    | .stmtOrBlockJob => parse_statement_or_block_body (parse_go fuelN) st
    | .blockDelimJob => parse_block_with_delimiters_body (parse_go fuelN) st
    | .fnDeclJob => parse_function_declaration_body (parse_go fuelN) st
    | .fnParamsJob => parse_fn_params_body (parse_go fuelN) st
    | .exprJob p => parse_expression_body (parse_go fuelN) p st
    | .methodCallJob => parse_method_call_body (parse_go fuelN) st
    | .methodArgsJob => parse_method_args_body (parse_go fuelN) st
    | .binExprJob p => parse_binary_expression_body (parse_go fuelN) p st
    | .binLoopJob p left => parse_bin_loop_body (parse_go fuelN) p left st
    | .termJob => parse_term_body (parse_go fuelN) st

/-- `Parser::parse_block` under the dispatcher. -/
def parse_block (fuel : Nat) (st : ParserState) :
    Except ParseFail (Block × ParserState) := do
  let (o, st1) ← parse_go fuel .blockJob st
  let b ← o.as_many
  .ok (b, st1)

/-- `Parser::parse_expression` under the dispatcher. -/
def parse_expression (fuel : Nat) (precedence : Int) (st : ParserState) :
    Except ParseFail (Expression × ParserState) := do
  let (o, st1) ← parse_go fuel (.exprJob precedence) st
  let e ← o.as_one
  .ok (e, st1)

/-- `Parser::parse`: build a `Program` node from the top-level block. -/
def parse_tokens (tokens : List Token) : Except ParseFail Expression := do
  let (b, _) ← parse_block 1000000 { pos := 0, tokens := tokens }
  .ok (build_program_node b)

/-! ### Runtime values (src/interpreter/value.rs)

Value operations that can call `crate::error::error` (which prints and exits
the process) return `Except String Value`; the `String` error is the abort
message.  All other operations are total, as in the source. -/

inductive Value
  | integer (i : Int)
  | float (q : ℚ)
  | string (s : String)
  | boolean (b : Bool)
  | empty
deriving DecidableEq

/-- A single-quote character, kept out of string literals. -/
def squote : String := String.singleton (Char.ofNat 39)

/-- `Value::to_string`.  Rust renders an integer-valued `f64` without a
fractional part (`512f64` prints as "512"), which the `den = 1` branch
reproduces exactly; the shortest-roundtrip decimal rendering of non-integer
doubles is not modelled (no claim prints a non-integer float) and is stood in
for by a fraction rendering. -/
def Value.to_string : Value → Value
  | .integer i => .string (toString i)
  | .float q => .string (if q.den = 1 then toString q.num else toString q.num ++ "/" ++ toString q.den)
  | .boolean b => .string (if b then "true" else "false")
  | .empty => .string ""
  | .string s => .string s

/-- The text carried by `Value::to_string` (always a `String` variant). -/
def Value.to_string_payload (v : Value) : String :=
  match v.to_string with
  | .string s => s
  | _ => ""

/-- `Value::to_number`: numeric coercion.  A string is tried as `i64`, then
as `f64`; otherwise `error(format!("Unable to convert string .."))` exits the
process, modelled as the error branch. -/
def Value.to_number : Value → Except String Value
  | .integer i => .ok (.integer i)
  | .float q => .ok (.float q)
  | .boolean b => .ok (if b then .integer 1 else .integer 0)
  | .empty => .ok (.integer 0)
  | .string s =>
    match rust_parse_i64 s with
    | some i => .ok (.integer i)
    | none =>
      match rust_parse_f64 s with
      | some f => .ok (.float f)
      | none => .error ("Unable to convert string " ++ squote ++ s ++ squote ++ " to number")

/-- `Value::to_i64` (the `f as i64` cast truncates toward zero). -/
def Value.to_i64 (v : Value) : Except String Int := do
  match ← v.to_number with
  | .integer i => .ok i
  | .float f => .ok (f.num / (f.den : Int))
  | _ => .error "Expected numeric value"

/-- `Value::to_f64`: force-convert to a double (modelled exactly over ℚ). -/
def Value.to_f64 (v : Value) : Except String ℚ := do
  match ← v.to_number with
  | .integer i => .ok (i : ℚ)
  | .float f => .ok f
  | _ => .error "Expected numeric value"

/-- Lower-case an ASCII string (`str::to_ascii_lowercase`). -/
def ascii_lowercase (s : String) : String :=
  String.mk (s.data.map Char.toLower)

/-- `Value::to_bool`: truthiness. -/
def Value.to_bool : Value → Bool
  | .boolean b => b
  | .integer i => i ≠ 0
  | .float f => f ≠ 0
  | .empty => false
  | .string s =>
    let t := ascii_lowercase s.trim
    ¬ (t = "" ∨ t = "0" ∨ t = "false")

def Value.and_value (v other : Value) : Value :=
  .boolean (v.to_bool && other.to_bool)

def Value.or_value (v other : Value) : Value :=
  .boolean (v.to_bool || other.to_bool)

/-- `Value::eq_value`: same-variant equality, cross numeric widening, any
other mixed pair unequal. -/
def Value.eq_value (v other : Value) : Value :=
  .boolean (
    match v, other with
    | .integer a, .integer b => a = b
    | .float a, .float b => a = b
    | .string a, .string b => a = b
    | .boolean a, .boolean b => a = b
    | .empty, .empty => true
    | .integer a, .float b => (a : ℚ) = b
    | .float a, .integer b => a = (b : ℚ)
    | _, _ => false)

/-- `Value::gt_value`. -/
def Value.gt_value (v other : Value) : Value :=
  .boolean (
    match v, other with
    | .integer a, .integer b => a > b
    | .float a, .float b => a > b
    | .string a, .string b => b < a
    | .boolean a, .boolean b => a && !b
    | .empty, .empty => false
    | .integer a, .float b => (a : ℚ) > b
    | .float a, .integer b => a > (b : ℚ)
    | _, _ => false)

/-- `Value::gte_value`. -/
def Value.gte_value (v other : Value) : Value :=
  .boolean (
    match v, other with
    | .integer a, .integer b => a ≥ b
    | .float a, .float b => a ≥ b
    | .string a, .string b => b < a ∨ a = b
    | .boolean a, .boolean b => a || !b
    | .empty, .empty => false
    | .integer a, .float b => (a : ℚ) ≥ b
    | .float a, .integer b => a ≥ (b : ℚ)
    | _, _ => false)

/-- `Value::lt_value`. -/
def Value.lt_value (v other : Value) : Value :=
  .boolean (
    match v, other with
    | .integer a, .integer b => a < b
    | .float a, .float b => a < b
    | .string a, .string b => a < b
    | .boolean a, .boolean b => !a && b
    | .empty, .empty => false
    | .integer a, .float b => (a : ℚ) < b
    | .float a, .integer b => a < (b : ℚ)
    | _, _ => false)

/-- `Value::lte_value`. -/
def Value.lte_value (v other : Value) : Value :=
  .boolean (
    match v, other with
    | .integer a, .integer b => a ≤ b
    | .float a, .float b => a ≤ b
    | .string a, .string b => a < b ∨ a = b
    | .boolean a, .boolean b => !a || b
    | .empty, .empty => false
    | .integer a, .float b => (a : ℚ) ≤ b
    | .float a, .integer b => a ≤ (b : ℚ)
    | _, _ => false)

/-- `Value::neq_value`: negation of `eq_value`. -/
def Value.neq_value (v other : Value) : Value :=
  match v.eq_value other with
  | .boolean b => .boolean (!b)
  | _ => .boolean false

/-- `i64::checked_add`. -/
def checked_add (a b : Int) : Option Int :=
  let r := a + b
  if i64_min ≤ r ∧ r ≤ i64_max then some r else none

/-- `i64::checked_sub`. -/
def checked_sub (a b : Int) : Option Int :=
  let r := a - b
  if i64_min ≤ r ∧ r ≤ i64_max then some r else none

/-- `i64::checked_mul`. -/
def checked_mul (a b : Int) : Option Int :=
  let r := a * b
  if i64_min ≤ r ∧ r ≤ i64_max then some r else none

/-- Widening of a `to_number` result to f64, as performed in the catch-all
arm of `numeric_binop` (whose non-numeric cases are `unreachable!()` because
`to_number` only produces numeric variants). -/
def num_to_f64q : Value → ℚ
  | .integer i => (i : ℚ)
  | .float f => f
  | _ => 0

/-- `Value::numeric_binop` (src/interpreter/value.rs lines 217-254): coerce
both operands through `to_number`; on two integers run the checked integer
operation, falling back to the float operation on overflow; otherwise widen
to f64 and run the float operation. -/
def numeric_binop (left right : Value) (int_op : Int → Int → Option Int)
    (float_op : ℚ → ℚ → ℚ) : Except String Value := do
  let lnum ← left.to_number
  let rnum ← right.to_number
  match lnum, rnum with
  | .integer li, .integer ri =>
    match int_op li ri with
    | some res_i => .ok (.integer res_i)
    | none => .ok (.float (float_op (li : ℚ) (ri : ℚ)))
  | lother, rother => .ok (.float (float_op (num_to_f64q lother) (num_to_f64q rother)))

def Value.is_string : Value → Bool
  | .string _ => true
  | _ => false

/-- `Value::add_value`: string concatenation when either side is a `String`,
otherwise checked integer addition with float fallback. -/
def Value.add_value (v right : Value) : Except String Value :=
  if v.is_string ∨ right.is_string then
    .ok (.string (v.to_string_payload ++ right.to_string_payload))
  else
    numeric_binop v right checked_add qadd

/-- `Value::sub_value`. -/
def Value.sub_value (v right : Value) : Except String Value :=
  numeric_binop v right checked_sub qsub

/-- `Value::mul_value`. -/
def Value.mul_value (v right : Value) : Except String Value :=
  numeric_binop v right checked_mul qmul

/-- `Value::div_value` (src/interpreter/value.rs lines 280-288): always a
float division; a zero right operand calls `error("Division by zero")`,
which prints and exits the process (the error branch here). -/
def Value.div_value (v right : Value) : Except String Value := do
  let lf ← v.to_f64
  let rf ← right.to_f64
  if rf = 0 then .error "Division by zero"
  else .ok (.float (qdiv lf rf))

/-- `f64::powf`, modelled exactly for integer exponents (the only exponents
any claim evaluates); non-integer exponents are transcendental and not
modelled. -/
def powfQ (a b : ℚ) : ℚ :=
  if b.den = 1 then
    if 0 ≤ b.num then qpow a b.num.toNat else qdiv 1 (qpow a (-b.num).toNat)
  else 0

/-- `Value::power`: always float exponentiation. -/
def Value.power (v right : Value) : Except String Value := do
  let left_f ← v.to_f64
  let right_f ← right.to_f64
  .ok (.float (powfQ left_f right_f))

/-! ### Scope arena (src/interpreter/scope.rs) -/

/-- A lexical scope: the two `HashMap`s are modelled as association lists
where insertion conses and lookup takes the first match (the observational
insert/lookup behaviour of `HashMap`). -/
structure Scope where
  parent : Option Nat
  vars : List (String × Value)
  funcs : List (String × FunctionDeclaration)

structure ScopeArena where
  scopes : List Scope

def assoc_lookup {α : Type} (m : List (String × α)) (k : String) : Option α :=
  (m.find? fun p => p.1 = k).map fun p => p.2

def list_modify {α : Type} (l : List α) (i : Nat) (f : α → α) : List α :=
  match l, i with
  | [], _ => []
  | x :: xs, 0 => f x :: xs
  | x :: xs, n + 1 => x :: list_modify xs n f

/-- `ScopeArena::new_scope`: append a fresh scope, returning its ID. -/
def ScopeArena.new_scope (a : ScopeArena) (parent : Option Nat) : ScopeArena × Nat :=
  ({ scopes := a.scopes ++ [{ parent := parent, vars := [], funcs := [] }] },
   a.scopes.length)

/-- `ScopeArena::define_variable`: insert into the addressed scope only.
(The source indexes `self.scopes[scope_id]` and would panic on a dead ID;
the interpreter only ever passes live IDs, and an out-of-range ID leaves the
arena unchanged here.) -/
def ScopeArena.define_variable (a : ScopeArena) (scope_id : Nat) (name : String)
    (value : Value) : ScopeArena :=
  { scopes := list_modify a.scopes scope_id
      fun sc => { sc with vars := (name, value) :: sc.vars } }

/-- `ScopeArena::define_function`. -/
def ScopeArena.define_function (a : ScopeArena) (scope_id : Nat) (name : String)
    (function : FunctionDeclaration) : ScopeArena :=
  { scopes := list_modify a.scopes scope_id
      fun sc => { sc with funcs := (name, function) :: sc.funcs } }

/-- The parent-walking loop of `ScopeArena::lookup_variable`, with fuel.  In
every arena the interpreter builds, parent IDs are strictly smaller than
child IDs, so `scopes.length + 1` steps always suffice. -/
def lookup_var_loop : Nat → ScopeArena → Nat → String → Option Value
  | 0, _, _, _ => none
  | fuelN + 1, a, scope_id, name =>
    match a.scopes.get? scope_id with
    | none => none
    | some sc =>
      match assoc_lookup sc.vars name with
      | some v => some v
      | none =>
        match sc.parent with
        | some p => lookup_var_loop fuelN a p name
        | none => none

def ScopeArena.lookup_variable (a : ScopeArena) (scope_id : Nat) (name : String) :
    Option Value :=
  lookup_var_loop (a.scopes.length + 1) a scope_id name

/-- The parent-walking loop of `ScopeArena::lookup_function`. -/
def lookup_fn_loop : Nat → ScopeArena → Nat → String → Option FunctionDeclaration
  | 0, _, _, _ => none
  | fuelN + 1, a, scope_id, name =>
    match a.scopes.get? scope_id with
    | none => none
    | some sc =>
      match assoc_lookup sc.funcs name with
      | some f => some f
      | none =>
        match sc.parent with
        | some p => lookup_fn_loop fuelN a p name
        | none => none

def ScopeArena.lookup_function (a : ScopeArena) (scope_id : Nat) (name : String) :
    Option FunctionDeclaration :=
  lookup_fn_loop (a.scopes.length + 1) a scope_id name

/-! ### Call stack and runtime errors (src/interpreter/call_stack.rs,
src/interpreter/runtime_errors.rs) -/

structure StackFrame where
  function : String
  location : Option Nat
deriving DecidableEq

structure RuntimeError where
  message : String
  stack : List StackFrame
deriving DecidableEq

/-- `StackAttachable::with_frame`: push one frame onto the error. -/
def RuntimeError.with_frame (e : RuntimeError) (f : StackFrame) : RuntimeError :=
  { e with stack := e.stack ++ [f] }

/-- `CallStack::attach_to_error`: push every current frame, oldest first. -/
def attach_frames (frames : List StackFrame) (err : RuntimeError) : RuntimeError :=
  frames.foldl RuntimeError.with_frame err

/-! ### Execution context (src/interpreter/execution_context.rs) -/

/-- The host I/O surface used by the native builtins: accumulated stdout text
and pending stdin lines (each without its trailing newline). -/
structure HostIO where
  output : String
  input : List String

/-- The execution context.  `return_values` and `call_stack` model the
source's `Vec`s; `return_values` keeps its top (the source's `last`) at the
head, `call_stack` keeps source order (oldest first).  `io` is the host I/O
model, not a source field. -/
structure ExecutionContext where
  function_depth : Nat
  return_values : List (Option Value)
  scope_arena : ScopeArena
  current_scope : Nat
  call_stack : List StackFrame
  io : HostIO

/-- `ExecutionContext::new`: one root scope, empty stacks. -/
def ExecutionContext.new (input : List String) : ExecutionContext :=
  let (arena, root) := ScopeArena.new_scope { scopes := [] } none
  { function_depth := 0, return_values := [], scope_arena := arena,
    current_scope := root, call_stack := [], io := { output := "", input := input } }

/-- `ExecutionContext::enter_function`: depth++ and push a fresh return
slot. -/
def ExecutionContext.enter_function (ctx : ExecutionContext) : ExecutionContext :=
  { ctx with function_depth := ctx.function_depth + 1,
             return_values := none :: ctx.return_values }

/-- `ExecutionContext::exit_function_with_return`
(src/interpreter/execution_context.rs lines 30-36): at depth zero yield
nothing; otherwise decrement the depth and pop the top return slot. -/
def ExecutionContext.exit_function_with_return (ctx : ExecutionContext) :
    Option Value × ExecutionContext :=
  if ctx.function_depth = 0 then (none, ctx)
  else
    match ctx.return_values with
    | [] => (none, { ctx with function_depth := ctx.function_depth - 1 })
    | s :: rest =>
      (s, { ctx with function_depth := ctx.function_depth - 1, return_values := rest })

/-- `ExecutionContext::enter_new_scope`: allocate a child of the current
scope, make it current, and report `(parent, child)`. -/
def ExecutionContext.enter_new_scope (ctx : ExecutionContext) :
    (Nat × Nat) × ExecutionContext :=
  let parent_scope := ctx.current_scope
  let (arena, child_scope) := ctx.scope_arena.new_scope (some parent_scope)
  ((parent_scope, child_scope),
   { ctx with scope_arena := arena, current_scope := child_scope })

def ExecutionContext.define_variable_in_scope (ctx : ExecutionContext)
    (id : String) (value : Value) : ExecutionContext :=
  { ctx with scope_arena := ctx.scope_arena.define_variable ctx.current_scope id value }

def ExecutionContext.define_function_in_scope (ctx : ExecutionContext)
    (id : String) (node : FunctionDeclaration) : ExecutionContext :=
  { ctx with scope_arena := ctx.scope_arena.define_function ctx.current_scope id node }

def ExecutionContext.lookup_function_in_scope (ctx : ExecutionContext)
    (method_name : String) : Option FunctionDeclaration :=
  ctx.scope_arena.lookup_function ctx.current_scope method_name

def ExecutionContext.lookup_variable_in_scope (ctx : ExecutionContext)
    (id : String) : Option Value :=
  ctx.scope_arena.lookup_variable ctx.current_scope id

def ExecutionContext.restore_scope (ctx : ExecutionContext) (scope : Nat) :
    ExecutionContext :=
  { ctx with current_scope := scope }

def ExecutionContext.is_in_function (ctx : ExecutionContext) : Bool :=
  ctx.function_depth > 0

/-- `ExecutionContext::push_frame` (the source `Vec` pushes at the end). -/
def ExecutionContext.push_frame (ctx : ExecutionContext) (name : String)
    (location : Option Nat) : ExecutionContext :=
  { ctx with call_stack := ctx.call_stack ++ [{ function := name, location := location }] }

def ExecutionContext.pop_frame (ctx : ExecutionContext) : ExecutionContext :=
  { ctx with call_stack := ctx.call_stack.dropLast }

/-- `ExecutionContext::attach_stack`. -/
def ExecutionContext.attach_stack (ctx : ExecutionContext) (err : RuntimeError) :
    RuntimeError :=
  attach_frames ctx.call_stack err

/-! ### Evaluator failure modes -/

/-- How an evaluation can fail: a returned `RuntimeError`
(`Result::Err` in the source), a process exit through `crate::error::error`
(`abort`), a Rust panic, or model-fuel exhaustion (never reached below). -/
inductive EvalFail
  | runtime (e : RuntimeError)
  | abort (msg : String)
  | panic (msg : String)
  | fuel
deriving DecidableEq

/-- Lift a value-level abort (`crate::error::error`) into the evaluator. -/
def liftAbort {α : Type} : Except String α → Except EvalFail α
  | .ok a => .ok a
  | .error m => .error (.abort m)

/-- `Interpreter::error_with_stack`: a fresh `RuntimeError` with the current
call stack attached. -/
def error_with_stack (ctx : ExecutionContext) (msg : String) : EvalFail :=
  .runtime (ctx.attach_stack { message := msg, stack := [] })

/-! ### Native function registry (src/interpreter/methods) -/

def value_concat_string (args : List Value) : String :=
  args.foldl (fun acc a => acc ++ a.to_string_payload) ""

/-- `fn_print`: write the string-coerced arguments; yield `Empty`. -/
def fn_print (args : List Value) (io : HostIO) : Except EvalFail (Value × HostIO) :=
  .ok (.empty, { io with output := io.output ++ value_concat_string args })

/-- `fn_println`: like `fn_print` plus a newline. -/
def fn_println (args : List Value) (io : HostIO) : Except EvalFail (Value × HostIO) :=
  .ok (.empty, { io with output := io.output ++ value_concat_string args ++ "\n" })

/-- `fn_readln`: write the arguments as a prompt, then read one line (empty
at end of input, as `read_line` yields an empty buffer there); input lines
are modelled without trailing newlines, so the CR/LF trimming is already
done. -/
def fn_readln (args : List Value) (io : HostIO) : Except EvalFail (Value × HostIO) :=
  let io1 := { io with output := io.output ++ value_concat_string args }
  match io1.input with
  | [] => .ok (.string "", io1)
  | l :: rest => .ok (.string l, { io1 with input := rest })

/-- `fn_str_concat`. -/
def fn_str_concat (args : List Value) (io : HostIO) : Except EvalFail (Value × HostIO) :=
  .ok (.string (value_concat_string args), io)

/-- The arity error produced by the `takes_arguments!` helper. -/
def arity_error (n m : Nat) : EvalFail :=
  let word := if n = 1 then " parameter, found " else " parameters, found "
  .runtime { message := "Expected " ++ toString n ++ word ++ toString m, stack := [] }

/-- `fn_to_number` (src/interpreter/methods/string.rs lines 27-48): the
native `to_number` maps the empty string to `Integer(0)`; an unparseable
non-empty string exits the process via `error` (message "Cannot convert
string .."); other variants defer to `Value::to_number`. -/
def fn_to_number (args : List Value) (io : HostIO) : Except EvalFail (Value × HostIO) :=
  match args with
  | [value] =>
    match value with
    | .string s =>
      if s = "" then .ok (.integer 0, io)
      else
        match rust_parse_i64 s with
        | some i => .ok (.integer i, io)
        | none =>
          match rust_parse_f64 s with
          | some f => .ok (.float f, io)
          | none =>
            .error (.abort ("Cannot convert string " ++ squote ++ s ++ squote ++ " to number"))
    | _ =>
      match value.to_number with
      | .ok n => .ok (n, io)
      | .error m => .error (.abort m)
  | _ => .error (arity_error 1 args.length)

/-- Stand-ins for the transcendental `f64::sin` / `f64::cos`, which have no
exact rational model; no claim depends on their values, only on the registry
containing the names. -/
def f64_sin (_ : ℚ) : ℚ := 0

def f64_cos (_ : ℚ) : ℚ := 0

/-- `fn_sin`. -/
def fn_sin (args : List Value) (io : HostIO) : Except EvalFail (Value × HostIO) :=
  match args with
  | [angle] =>
    match angle.to_f64 with
    | .ok q => .ok (.float (f64_sin q), io)
    | .error m => .error (.abort m)
  | _ => .error (arity_error 1 args.length)

/-- `fn_cos`. -/
def fn_cos (args : List Value) (io : HostIO) : Except EvalFail (Value × HostIO) :=
  match args with
  | [angle] =>
    match angle.to_f64 with
    | .ok q => .ok (.float (f64_cos q), io)
    | .error m => .error (.abort m)
  | _ => .error (arity_error 1 args.length)

/-- The registered native methods (the `register_method!` submissions in
src/interpreter/methods; registration order does not matter because names
are distinct). -/
def lookup_native (name : String) :
    Option (List Value → HostIO → Except EvalFail (Value × HostIO)) :=
  if name = "sin" then some fn_sin
  else if name = "cos" then some fn_cos
  else if name = "print" then some fn_print
  else if name = "println" then some fn_println
  else if name = "readln" then some fn_readln
  else if name = "str_concat" then some fn_str_concat
  else if name = "to_number" then some fn_to_number
  else none

/-- `get_method` (src/interpreter/methods/mod.rs lines 23-31): dispatch to a
registered native, or the "Method not found" runtime error (with an empty
stack; the caller may attach one). -/
def get_method (name : String) (args : List Value) (io : HostIO) :
    Except EvalFail (Value × HostIO) :=
  match lookup_native name with
  | some f => f args io
  | none => .error (.runtime { message := "Method not found: " ++ name, stack := [] })

/-! ### Evaluator (src/interpreter/core.rs) -/

/-- The control-flow signal: `cont` is the source's `Continue`, `brk` its
`Break`. -/
inductive ControlFlow
  | cont
  | brk
deriving DecidableEq

/-- `Interpreter::evaluate_function_definition` (non-recursive): clone the
declaration into the current scope's function table. -/
def evaluate_function_definition (ctx : ExecutionContext)
    (node : FunctionDeclaration) : ExecutionContext :=
  ctx.define_function_in_scope node.identifier.name node

/-- The mutually recursive evaluation routines of `Interpreter` are tied
together through a single fueled dispatcher (`eval_go`), in the same style
as the parser; each routine keeps its own named body, parameterized by the
recursion oracle `go`.  A job names one routine with its arguments. -/
inductive EvalJob
  | evalJob (node : Option Expression)
  | programJob (body : List Expression)
  | returnJob (e : Expression)
  | blockJob (blk : List Expression)
  | blockLoopJob (blk : List Expression)
  | statementJob (e : Expression)
  | conditionalJob (cond : Expression) (if_block : List Expression)
      (else_block : Option (List Expression))
  | assignmentJob (id : Identifier) (e : Expression)
  | callJob (id : Identifier) (args : List Expression) (location : Nat)
  | argsJob (args : List Expression)
  | exprJob (e : Expression)

/-- Result of one evaluation routine, matching the source routines' return
types: a control-flow signal, unit, a value, a value list, or the
break-invoked flag of the block loop. -/
inductive EvalOut
  | flow (c : ControlFlow)
  | unit
  | val (v : Value)
  | vals (vs : List Value)
  | flag (b : Bool)

/-- Shape extractor (an artifact of the single-dispatcher encoding; the
mismatch branch is unreachable because every job returns its own shape). -/
def EvalOut.as_flow : EvalOut → Except EvalFail ControlFlow
  | .flow c => .ok c
  | _ => .error (.panic "evaluator result shape")

/-- Shape extractor; see `EvalOut.as_flow`. -/
def EvalOut.as_unit : EvalOut → Except EvalFail Unit
  | .unit => .ok ()
  | _ => .error (.panic "evaluator result shape")

/-- Shape extractor; see `EvalOut.as_flow`. -/
def EvalOut.as_val : EvalOut → Except EvalFail Value
  | .val v => .ok v
  | _ => .error (.panic "evaluator result shape")

/-- Shape extractor; see `EvalOut.as_flow`. -/
def EvalOut.as_vals : EvalOut → Except EvalFail (List Value)
  | .vals vs => .ok vs
  | _ => .error (.panic "evaluator result shape")

/-- Shape extractor; see `EvalOut.as_flow`. -/
def EvalOut.as_flag : EvalOut → Except EvalFail Bool
  | .flag b => .ok b
  | _ => .error (.panic "evaluator result shape")

/-- The type of the recursion oracle threaded through the routine bodies. -/
abbrev EvalGo := EvalJob → ExecutionContext → Except EvalFail (EvalOut × ExecutionContext)

/-- `Interpreter::evaluate` (src/interpreter/core.rs lines 33-66): dispatch
on the node variant.  Note that the `IfConditional` arm discards the result
of `evaluate_conditional` and always reports `Continue`, and that a missing
node reports `Break`. -/
def evaluate_body (go : EvalGo) (ctx : ExecutionContext) (node : Option Expression) :
    Except EvalFail (EvalOut × ExecutionContext) :=
  match node with
  | some node_content =>
    match node_content with
    | .program body => go (.programJob body) ctx
    | .binaryOperation l op r => do
      let (_, ctx1) ← go (.exprJob (.binaryOperation l op r)) ctx
      .ok (.flow .cont, ctx1)
    | .statement e => go (.statementJob (.statement e)) ctx
    | .declaration id e => go (.statementJob (.declaration id e)) ctx
    | .functionCall id args loc => go (.statementJob (.functionCall id args loc)) ctx
    | .ifConditional cond if_block else_block => do
      let (_, ctx1) ← go (.conditionalJob cond if_block else_block) ctx
      .ok (.flow .cont, ctx1)
    | .ret e => do
      let (_, ctx1) ← go (.returnJob (.ret e)) ctx
      .ok (.flow .brk, ctx1)
    | .functionDeclaration id params body =>
      .ok (.flow .cont, evaluate_function_definition ctx ⟨id, params, body⟩)
    | _ => .error (.panic "Unexpected AST node")
  | none => .ok (.flow .brk, ctx)

/-- `Interpreter::evaluate_program`. -/
def evaluate_program_body (go : EvalGo) (ctx : ExecutionContext)
    (statements : List Expression) : Except EvalFail (EvalOut × ExecutionContext) :=
  go (.blockJob statements) ctx

/-- `Interpreter::evaluate_return`: only legal inside a function; evaluates
the inner expression into the top return slot
(`ExecutionContext::set_return_value`, which panics on an empty slot
stack). -/
def evaluate_return_body (go : EvalGo) (ctx : ExecutionContext)
    (expression : Expression) : Except EvalFail (EvalOut × ExecutionContext) :=
  if ctx.is_in_function then
    match expression with
    | .ret inner => do
      let (valueO, ctx1) ← go (.exprJob inner) ctx
      let value ← valueO.as_val
      match ctx1.return_values with
      | [] => .error (.panic "set_return_value called outside of a function")
      | _ :: rest => .ok (.unit, { ctx1 with return_values := some value :: rest })
    | _ => .error (error_with_stack ctx "Expected a return expression")
  else
    .error (error_with_stack ctx "Attempting to return outside a function block")

/-- `Interpreter::evaluate_block` (src/interpreter/core.rs lines 87-102):
fresh child scope, statements until a `Break`, restore the parent scope,
propagate the signal. -/
def evaluate_block_body (go : EvalGo) (ctx : ExecutionContext)
    (blk : List Expression) : Except EvalFail (EvalOut × ExecutionContext) := do
  let ((parent_scope, _), ctx1) := ctx.enter_new_scope
  let (flagO, ctx2) ← go (.blockLoopJob blk) ctx1
  let break_invoked ← flagO.as_flag
  let ctx3 := ctx2.restore_scope parent_scope
  .ok (if break_invoked then (.flow .brk, ctx3) else (.flow .cont, ctx3))

/-- The statement loop inside `Interpreter::evaluate_block`; yields whether
a `Break` was signalled. -/
def evaluate_block_loop_body (go : EvalGo) (ctx : ExecutionContext)
    (blk : List Expression) : Except EvalFail (EvalOut × ExecutionContext) :=
  match blk with
  | [] => .ok (.flag false, ctx)
  | s :: rest => do
    let (flowO, ctx1) ← go (.evalJob (some s)) ctx
    let flow ← flowO.as_flow
    match flow with
    | .brk => .ok (.flag true, ctx1)
    | .cont => go (.blockLoopJob rest) ctx1

/-- `Interpreter::evaluate_statement`. -/
def evaluate_statement_body (go : EvalGo) (ctx : ExecutionContext)
    (expression : Expression) : Except EvalFail (EvalOut × ExecutionContext) :=
  match expression with
  | .statement expr => go (.evalJob (some expr)) ctx
  | .declaration id expr => do
    let (_, ctx1) ← go (.assignmentJob id expr) ctx
    .ok (.flow .cont, ctx1)
  | .functionCall id args loc => do
    let (_, ctx1) ← go (.callJob id args loc) ctx
    .ok (.flow .cont, ctx1)
  | _ => .error (error_with_stack ctx "Unexpected AST node")

/-- `Interpreter::evaluate_conditional` (src/interpreter/core.rs lines
122-135): truthiness on the condition, then the chosen block; the block's
control-flow result is discarded (`self.evaluate_block(..)?;`). -/
def evaluate_conditional_body (go : EvalGo) (ctx : ExecutionContext)
    (expression : Expression) (if_block : List Expression)
    (else_block : Option (List Expression)) :
    Except EvalFail (EvalOut × ExecutionContext) := do
  let (resO, ctx1) ← go (.exprJob expression) ctx
  let expression_result ← resO.as_val
  if expression_result.to_bool then do
    let (_, ctx2) ← go (.blockJob if_block) ctx1
    .ok (.unit, ctx2)
  else
    match else_block with
    | some eb => do
      let (_, ctx2) ← go (.blockJob eb) ctx1
      .ok (.unit, ctx2)
    | none => .ok (.unit, ctx1)

/-- `Interpreter::evaluate_assignment`: evaluate and bind in the current
scope. -/
def evaluate_assignment_body (go : EvalGo) (ctx : ExecutionContext)
    (id : Identifier) (expression : Expression) :
    Except EvalFail (EvalOut × ExecutionContext) := do
  let (valueO, ctx1) ← go (.exprJob expression) ctx
  let value ← valueO.as_val
  .ok (.unit, ctx1.define_variable_in_scope id.name value)

/-- `Interpreter::evaluate_function_call` (src/interpreter/core.rs lines
157-210).  User functions: eager argument evaluation, arity check, child
scope with parameter bindings, frame push, `enter_function`, body block,
return slot read with `Integer(0)` default, frame pop, scope restore.
Native path: frame push, argument evaluation, registry dispatch, frame pop,
then stack attachment onto a registry error. -/
def evaluate_function_call_body (go : EvalGo) (ctx : ExecutionContext)
    (id : Identifier) (arg_exprs : List Expression) (location : Nat) :
    Except EvalFail (EvalOut × ExecutionContext) :=
  let method_name := id.name
  match ctx.lookup_function_in_scope method_name with
  | some fd => do
    let param_names := fd.arguments
    let (argsO, ctx1) ← go (.argsJob arg_exprs) ctx
    let evaluated_args ← argsO.as_vals
    if param_names.length ≠ evaluated_args.length then
      .error (error_with_stack ctx1 ("Function " ++ squote ++ method_name ++ squote ++
        " expected " ++ toString param_names.length ++ " arguments, got " ++
        toString evaluated_args.length))
    else do
      let ((parent_scope, _), ctx2) := ctx1.enter_new_scope
      let ctx3 := (param_names.zip evaluated_args).foldl
        (fun c pv => c.define_variable_in_scope pv.1.name pv.2) ctx2
      let ctx4 := ctx3.push_frame method_name (some location)
      let ctx5 := ctx4.enter_function
      let (_, ctx6) ← go (.blockJob fd.block) ctx5
      let (return_slot, ctx7) := ctx6.exit_function_with_return
      let return_value := return_slot.getD (Value.integer 0)
      let ctx8 := ctx7.pop_frame
      let ctx9 := ctx8.restore_scope parent_scope
      .ok (.val return_value, ctx9)
  | none => do
    let ctx1 := ctx.push_frame method_name (some location)
    let (argsO, ctx2) ← go (.argsJob arg_exprs) ctx1
    let args ← argsO.as_vals
    let result := get_method method_name args ctx2.io
    let ctx3 := ctx2.pop_frame
    match result with
    | .ok (v, io1) => .ok (.val v, { ctx3 with io := io1 })
    | .error (.runtime re) => .error (.runtime (ctx3.attach_stack re))
    | .error other => .error other

/-- `Interpreter::evaluate_arguments`: left-to-right evaluation. -/
def evaluate_arguments_body (go : EvalGo) (ctx : ExecutionContext)
    (args : List Expression) : Except EvalFail (EvalOut × ExecutionContext) :=
  match args with
  | [] => .ok (.vals [], ctx)
  | e :: rest => do
    let (vO, ctx1) ← go (.exprJob e) ctx
    let v ← vO.as_val
    let (vsO, ctx2) ← go (.argsJob rest) ctx1
    let vs ← vsO.as_vals
    .ok (.vals (v :: vs), ctx2)

/-- `Interpreter::evaluate_expression` (src/interpreter/core.rs lines
220-305).  The source's lazy `Boolean(And/Or)` arms refer to an operator
variant absent from the snapshot's `OperatorType` (see the note there) and
unconstructible by lexer or parser; they are omitted.  The catch-all arm's
message carries the node's Debug dump in the source, which is not
modelled. -/
def evaluate_expression_body (go : EvalGo) (ctx : ExecutionContext)
    (node : Expression) : Except EvalFail (EvalOut × ExecutionContext) :=
  match node with
  | .identifier id =>
    match ctx.lookup_variable_in_scope id.name with
    | some result => .ok (.val result, ctx)
    | none => .error (error_with_stack ctx ("Undefined variable " ++ id.name))
  | .literal l =>
    match l with
    | .boolean b => .ok (.val (.boolean b), ctx)
    | .integer i => .ok (.val (.integer i), ctx)
    | .float f => .ok (.val (.float f), ctx)
    | .string s => .ok (.val (.string s), ctx)
  | .functionCall id args loc => go (.callJob id args loc) ctx
  | .unaryOperation operator expr => do
    let (valO, ctx1) ← go (.exprJob expr) ctx
    let val ← valO.as_val
    match operator with
    | .unary .min => do
      let r ← liftAbort ((Value.float (mkRat (-1) 1)).mul_value val)
      .ok (.val r, ctx1)
    | .unary .not => .ok (.val (.boolean (!val.to_bool)), ctx1)
    | _ => .error (.panic "unreachable")
  | .binaryOperation left op right => do
    let (lO, ctx1) ← go (.exprJob left) ctx
    let left_val ← lO.as_val
    let (rO, ctx2) ← go (.exprJob right) ctx1
    let right_val ← rO.as_val
    match op with
    | .exponential => do
      let r ← liftAbort (left_val.power right_val)
      .ok (.val r, ctx2)
    | .multiplicative .mul => do
      let r ← liftAbort (left_val.mul_value right_val)
      .ok (.val r, ctx2)
    | .multiplicative .div => do
      let r ← liftAbort (left_val.div_value right_val)
      .ok (.val r, ctx2)
    | .additive .sub => do
      let r ← liftAbort (left_val.sub_value right_val)
      .ok (.val r, ctx2)
    | .additive .add => do
      let r ← liftAbort (left_val.add_value right_val)
      .ok (.val r, ctx2)
    | .comp comp_type =>
      let r :=
        match comp_type with
        | .eq => left_val.eq_value right_val
        | .neq => left_val.neq_value right_val
        | .gt => left_val.gt_value right_val
        | .lt => left_val.lt_value right_val
        | .gte => left_val.gte_value right_val
        | .lte => left_val.lte_value right_val
      .ok (.val r, ctx2)
    | .unary _ => .error (error_with_stack ctx2 "Unary operation unexpected")
  | _ => .error (error_with_stack ctx "Unrecognized node")

/-- The fueled dispatcher tying the evaluation routines together. -/
def eval_go : Nat → EvalJob → ExecutionContext → Except EvalFail (EvalOut × ExecutionContext)
  | 0, _, _ => .error .fuel
  | fuelN + 1, job, ctx =>
    match job with
    | .evalJob node => evaluate_body (eval_go fuelN) ctx node
    | .programJob body => evaluate_program_body (eval_go fuelN) ctx body
    | .returnJob e => evaluate_return_body (eval_go fuelN) ctx e
    | .blockJob blk => evaluate_block_body (eval_go fuelN) ctx blk
    | .blockLoopJob blk => evaluate_block_loop_body (eval_go fuelN) ctx blk
    | .statementJob e => evaluate_statement_body (eval_go fuelN) ctx e
    | .conditionalJob c i e => evaluate_conditional_body (eval_go fuelN) ctx c i e
    | .assignmentJob id e => evaluate_assignment_body (eval_go fuelN) ctx id e
    | .callJob id args loc => evaluate_function_call_body (eval_go fuelN) ctx id args loc
    | .argsJob args => evaluate_arguments_body (eval_go fuelN) ctx args
    | .exprJob e => evaluate_expression_body (eval_go fuelN) ctx e

/-- `Interpreter::evaluate` under the dispatcher. -/
def evaluate (fuel : Nat) (ctx : ExecutionContext) (node : Option Expression) :
    Except EvalFail (ControlFlow × ExecutionContext) := do
  let (o, ctx1) ← eval_go fuel (.evalJob node) ctx
  let c ← o.as_flow
  .ok (c, ctx1)

/-- `Interpreter::evaluate_expression` under the dispatcher. -/
def evaluate_expression (fuel : Nat) (ctx : ExecutionContext) (e : Expression) :
    Except EvalFail (Value × ExecutionContext) := do
  let (o, ctx1) ← eval_go fuel (.exprJob e) ctx
  let v ← o.as_val
  .ok (v, ctx1)

/-- `Interpreter::evaluate_function_call` under the dispatcher. -/
def evaluate_function_call (fuel : Nat) (ctx : ExecutionContext)
    (id : Identifier) (args : List Expression) (location : Nat) :
    Except EvalFail (Value × ExecutionContext) := do
  let (o, ctx1) ← eval_go fuel (.callJob id args location) ctx
  let v ← o.as_val
  .ok (v, ctx1)

/-- `Interpreter::evaluate_block` under the dispatcher. -/
def evaluate_block (fuel : Nat) (ctx : ExecutionContext) (blk : List Expression) :
    Except EvalFail (ControlFlow × ExecutionContext) := do
  let (o, ctx1) ← eval_go fuel (.blockJob blk) ctx
  let c ← o.as_flow
  .ok (c, ctx1)

/-- `Interpreter::run` (on a fresh interpreter, with the given stdin
lines). -/
def interpreter_run (input : List String) (node : Option Expression) :
    Except EvalFail ExecutionContext := do
  let (_, ctx) ← evaluate 1000000 (ExecutionContext.new input) node
  .ok ctx

/-! ### Whole pipeline -/

/-- The outcome of lexing, parsing and running one source text, as the
binary does (src/main.rs): the first failing stage wins. -/
inductive RunResult
  | lexErr (e : LexFail)
  | parseErr (e : ParseFail)
  | evalErr (e : EvalFail)
  | ok (ctx : ExecutionContext)

/-- Lex, parse and evaluate a source text with empty stdin. -/
def run_source (src : String) : RunResult :=
  match tokenize src with
  | .error e => .lexErr e
  | .ok toks =>
    match parse_tokens toks with
    | .error e => .parseErr e
    | .ok ast =>
      match interpreter_run [] (some ast) with
      | .error e => .evalErr e
      | .ok ctx => .ok ctx

/-- Accumulated stdout of a successful run. -/
def output_of : RunResult → Option String
  | .ok ctx => some ctx.io.output
  | _ => none

/-- The evaluator failure of a run, when there is one. -/
def eval_error_of : RunResult → Option EvalFail
  | .evalErr e => some e
  | _ => none

/-- The parser failure of a run, when there is one. -/
def parse_error_of : RunResult → Option ParseFail
  | .parseErr e => some e
  | _ => none


/-- Successfully lexed and parsed AST of a source text, when both stages
succeed. -/
def parse_source (src : String) : Option Expression :=
  match tokenize src with
  | .ok toks =>
    match parse_tokens toks with
    | .ok e => some e
    | .error _ => none
  | .error _ => none

/-- The value of evaluating one expression in a fresh context. -/
def eval_expr_value (e : Expression) : Option Value :=
  match evaluate_expression 1000000 (ExecutionContext.new []) e with
  | .ok (v, _) => some v
  | .error _ => none

/-! ### Shared lemmas -/

/-- The outcome shape of a checked integer operation with float fallback, as
a function of the two `to_number` results: the checked integer operation when
both are `Integer` (staying `Integer` on success, falling back to the exact
float operation on overflow), otherwise the float operation on the widened
operands. -/
def binop_spec (na nb : Value) (int_op : Int → Int → Option Int)
    (float_op : ℚ → ℚ → ℚ) : Value :=
  match na, nb with
  | .integer li, .integer ri =>
    match int_op li ri with
    | some res_i => .integer res_i
    | none => .float (float_op (li : ℚ) (ri : ℚ))
  | x, y => .float (float_op (num_to_f64q x) (num_to_f64q y))

/-- `numeric_binop` realises `binop_spec` on the operands' coercions. -/
theorem numeric_binop_eq (a b na nb : Value) (iop : Int → Int → Option Int)
    (fop : ℚ → ℚ → ℚ) (h1 : a.to_number = .ok na) (h2 : b.to_number = .ok nb) :
    numeric_binop a b iop fop = .ok (binop_spec na nb iop fop) := by
  simp only [numeric_binop, h1, h2, bind, Except.bind, binop_spec]
  rcases na with li | qa | sa | ba | _ <;> rcases nb with ri | qb | sb | bb | _ <;>
    first
    | rfl
    | (cases hio : iop li ri <;> simp [hio])

/-- A successful division result is always a `Float`. -/
theorem div_value_ok_is_float (a b v : Value) (h : Value.div_value a b = .ok v) :
    ∃ q, v = .float q := by
  unfold Value.div_value at h
  cases ha : a.to_f64 with
  | error m => simp [ha, bind, Except.bind] at h
  | ok lf =>
    cases hb : b.to_f64 with
    | error m => simp [ha, hb, bind, Except.bind] at h
    | ok rf =>
      simp only [ha, hb, bind, Except.bind] at h
      by_cases hz : rf = 0
      · simp [hz] at h
      · simp [hz] at h
        exact ⟨qdiv lf rf, h.symm⟩

/-- A right operand coercing to zero makes division abort. -/
theorem div_value_zero_error (a b : Value) (la : ℚ) (h1 : a.to_f64 = .ok la)
    (h2 : b.to_f64 = .ok 0) : Value.div_value a b = .error "Division by zero" := by
  simp [Value.div_value, h1, h2, bind, Except.bind]

/-- With an empty top return slot, the call result defaults to `Integer 0`
(the `exit_function_with_return().unwrap_or(Integer(0))` step of
`evaluate_function_call`). -/
theorem exit_slot_none (ctx : ExecutionContext) (rest : List (Option Value))
    (h : ctx.function_depth ≠ 0) (h2 : ctx.return_values = none :: rest) :
    (ctx.exit_function_with_return).1.getD (Value.integer 0) = Value.integer 0 := by
  simp [ExecutionContext.exit_function_with_return, h, h2]

/-- With a written top return slot, the call result is the slot's value. -/
theorem exit_slot_some (ctx : ExecutionContext) (v : Value) (rest : List (Option Value))
    (h : ctx.function_depth ≠ 0) (h2 : ctx.return_values = some v :: rest) :
    (ctx.exit_function_with_return).1.getD (Value.integer 0) = v := by
  simp [ExecutionContext.exit_function_with_return, h, h2]

/-- A name not in the registry yields the "Method not found" error with an
empty stack. -/
theorem get_method_not_found (name : String) (args : List Value) (io : HostIO)
    (h : lookup_native name = none) :
    get_method name args io = .error (.runtime ⟨"Method not found: " ++ name, []⟩) := by
  simp [get_method, h]

/-- Modifying the element just appended to a list touches nothing before
it. -/
theorem list_modify_append_length {α : Type} (l : List α) (x : α) (f : α → α) :
    list_modify (l ++ [x]) l.length f = l ++ [f x] := by
  induction l with
  | nil => rfl
  | cons a t ih => simp [list_modify, ih]

/-- Defining a variable in a freshly allocated child scope leaves every
pre-existing scope record unchanged. -/
theorem define_new_scope_preserves (a : ScopeArena) (pid : Nat) (name : String)
    (v : Value) (i : Nat) (h : i < a.scopes.length) :
    ((a.new_scope (some pid)).1.define_variable (a.new_scope (some pid)).2 name v).scopes.get? i
      = a.scopes.get? i := by
  simp only [ScopeArena.new_scope, ScopeArena.define_variable, list_modify_append_length]
  exact List.get?_append h

/-- Defining a variable in a freshly allocated child scope records the
binding in that child scope alone. -/
theorem define_new_scope_binds (a : ScopeArena) (pid : Nat) (name : String) (v : Value) :
    ((a.new_scope (some pid)).1.define_variable (a.new_scope (some pid)).2 name v).scopes.get?
        (a.new_scope (some pid)).2
      = some ⟨some pid, [(name, v)], []⟩ := by
  simp only [ScopeArena.new_scope, ScopeArena.define_variable, list_modify_append_length]
  exact List.get?_concat_length a.scopes _

/-! ### The claims -/

set_option maxRecDepth 100000

set_option maxHeartbeats 1000000

/-- C1: the claim states that comparison operators bind looser than
arithmetic, `a + b == c + d` parsing as `(a+b) == (c+d)` and `1 + 2 == 3`
evaluating to Boolean true.  The code gives `Comp` the highest precedence
(4) in a Pratt loop where higher binds tighter, so `1 + 2 == 3` parses as
`1 + (2 == 3)` and evaluates to `Integer 1` (printed "1"), and
`1 + 2 == 3 + 4` parses as `(1 + (2 == 3)) + 4`.  This theorem exhibits the
divergence at the claim's own example. -/
theorem c1_comparison_binds_tighter :
    parse_source "1 + 2 == 3;" = some (.program [.statement
      (.binaryOperation (.literal (.integer 1)) (.additive .add)
        (.binaryOperation (.literal (.integer 2)) (.comp .eq) (.literal (.integer 3))))]) ∧
    parse_source "1 + 2 == 3 + 4;" = some (.program [.statement
      (.binaryOperation
        (.binaryOperation (.literal (.integer 1)) (.additive .add)
          (.binaryOperation (.literal (.integer 2)) (.comp .eq) (.literal (.integer 3))))
        (.additive .add) (.literal (.integer 4)))]) ∧
    output_of (run_source "println(1 + 2 == 3);") = some "1\n" :=
  ⟨rfl, rfl, rfl⟩

/-- C2: the claim states that an if-statement whose chosen branch signals
Break propagates that Break, so statements after the if-statement in the
same function do not run.  The code discards the branch's control flow
(`evaluate` returns Continue for every `IfConditional`), so after
`if (true) { return 1; }` the function keeps executing: it prints "after"
and returns 2.  The first conjunct shows the discarded signal and the
written return slot directly on the `IfConditional` node; the second shows
the end-to-end consequence. -/
theorem c2_if_conditional_discards_break :
    (evaluate 100
        { ExecutionContext.new [] with function_depth := 1, return_values := [none] }
        (some (.ifConditional (.literal (.boolean true))
          [.statement (.ret (.literal (.integer 1)))] none))).map
        (fun p => (p.1, p.2.return_values)) = .ok (.cont, [some (.integer 1)]) ∧
    output_of (run_source
        "func f() \x7b if (true) \x7b return 1; \x7d println(\x22after\x22); return 2; \x7d println(f());")
      = some "after\n2\n" :=
  ⟨rfl, rfl⟩

/-- C3 counterexample: calling the unbound name `missing_fn` at top level
reports "Method not found: missing_fn" with an empty stack, so the reported
stack trace does not contain a frame for the call site (the call's frame is
popped before the stack is attached). -/
theorem c3_counterexample :
    eval_error_of (run_source "missing_fn();") =
      some (.runtime ⟨"Method not found: missing_fn", []⟩) :=
  rfl

/-- C3 (amended): a call to a name bound neither to a user function nor to
a native registry entry produces the runtime error "Method not found:
{name}", but its reported stack holds only the frames of enclosing calls:
the call's own frame is pushed before argument evaluation and popped before
the stack is attached, so a top-level call reports an empty stack, and a
call inside `f` reports only the frame for `f`. -/
theorem c3_method_not_found_stack :
    (∀ (name : String) (args : List Value) (io : HostIO),
      lookup_native name = none →
      get_method name args io = .error (.runtime ⟨"Method not found: " ++ name, []⟩)) ∧
    eval_error_of (run_source "missing_fn();") =
      some (.runtime ⟨"Method not found: missing_fn", []⟩) ∧
    eval_error_of (run_source "func f() \x7b missing_fn(); \x7d f();") =
      some (.runtime ⟨"Method not found: missing_fn", [⟨"f", some 1⟩]⟩) :=
  ⟨get_method_not_found, rfl, rfl⟩

/-- C3 witness: the registry rejection at the concrete name
"missing_fn". -/
theorem c3_witness :
    get_method "missing_fn" [] ⟨"", []⟩ =
      .error (.runtime ⟨"Method not found: missing_fn", []⟩) :=
  c3_method_not_found_stack.1 "missing_fn" [] ⟨"", []⟩ rfl

/-- C4: the claim states that a string literal missing its closing quote is
a lexer error.  The lexer's string loop just stops at end of input: for the
source consisting of `"abc` it returns a successful token stream whose
string literal has silently lost its last character (value "ab"), and for a
lone `"` the value slice `start+1 .. pos-1` is reversed and the source
panics (out-of-range byte slice). -/
theorem c4_unterminated_string_not_an_error :
    tokenize "\x22abc" = .ok
      [⟨0, 4, 1, .stringLiteral, none, some "ab"⟩, ⟨4, 4, 1, .eof, none, none⟩] ∧
    tokenize "\x22" = .error (.panic "string slice starts after it ends") :=
  ⟨rfl, rfl⟩

/-- C5 counterexample: both `String "5"` and `Integer 3` coerce to Integer
and their checked sum is `8`, yet `+` returns the concatenation
`String "53"`, not `Integer 8`: the claim omits the string-concatenation
rule of `add_value`. -/
theorem c5_counterexample :
    Value.to_number (.string "5") = .ok (.integer 5) ∧
    Value.to_number (.integer 3) = .ok (.integer 3) ∧
    checked_add 5 3 = some 8 ∧
    Value.add_value (.string "5") (.integer 3) = .ok (.string "53") ∧
    Value.string "53" ≠ Value.integer 8 :=
  ⟨rfl, rfl, rfl, rfl, by decide⟩

/-- C5 (amended): for operands coercing to Integer, `-` and `*` — and `+`
provided neither operand is a String (strings make `+` concatenate) —
perform the checked i64 operation, returning Integer on success and the
exact float result of the f64 operation on overflow; if either operand
coerces to Float, the result is the Float of the f64 operation.  All three
cases are captured by `binop_spec` over the `to_number` images. -/
theorem c5_checked_arithmetic (a b na nb : Value)
    (h1 : a.to_number = .ok na) (h2 : b.to_number = .ok nb) :
    a.sub_value b = .ok (binop_spec na nb checked_sub qsub) ∧
    a.mul_value b = .ok (binop_spec na nb checked_mul qmul) ∧
    (a.is_string = false → b.is_string = false →
      a.add_value b = .ok (binop_spec na nb checked_add qadd)) := by
  refine ⟨numeric_binop_eq a b na nb checked_sub qsub h1 h2,
    numeric_binop_eq a b na nb checked_mul qmul h1 h2, ?_⟩
  intro hs1 hs2
  simp only [Value.add_value, hs1, hs2]
  simpa using numeric_binop_eq a b na nb checked_add qadd h1 h2

/-- C5 witness: the amended statement at concrete inputs — a numeric string
minus a boolean stays Integer, `i64::MAX + 1` falls back to the exact float
sum, and a Float operand forces a Float result. -/
theorem c5_witness :
    Value.sub_value (.string "10") (.boolean true) = .ok (.integer 9) ∧
    Value.add_value (.integer 9223372036854775807) (.integer 1) =
      .ok (.float (mkRat 9223372036854775808 1)) ∧
    Value.sub_value (.float (mkRat 1 2)) (.integer 1) = .ok (.float (mkRat (-1) 2)) :=
  ⟨(c5_checked_arithmetic (.string "10") (.boolean true)
      (.integer 10) (.integer 1) rfl rfl).1,
   (c5_checked_arithmetic (.integer 9223372036854775807) (.integer 1)
      (.integer 9223372036854775807) (.integer 1) rfl rfl).2.2 rfl rfl,
   (c5_checked_arithmetic (.float (mkRat 1 2)) (.integer 1)
      (.float (mkRat 1 2)) (.integer 1) rfl rfl).1⟩

/-- C6 counterexample: dividing by zero does not return a runtime error to
the caller; it goes through `crate::error::error`, which prints the message
and exits the process (`EvalFail.abort`), a different outcome from a
returned `RuntimeError`. -/
theorem c6_counterexample :
    eval_error_of (run_source "let a = 1 / 0;") = some (.abort "Division by zero") ∧
    EvalFail.abort "Division by zero" ≠ EvalFail.runtime ⟨"Division by zero", []⟩ :=
  ⟨rfl, by decide⟩

/-- C6 (amended): division, when it succeeds, always returns a Float (even
for evenly dividing Integers); a right operand coercing to zero makes
`div_value` call the `error` helper, which prints "Division by zero" and
exits the process instead of returning a runtime error to the caller. -/
theorem c6_division_always_float_zero_aborts :
    (∀ a b v : Value, Value.div_value a b = .ok v → ∃ q, v = .float q) ∧
    (∀ (a b : Value) (la : ℚ), a.to_f64 = .ok la → b.to_f64 = .ok 0 →
      Value.div_value a b = .error "Division by zero") ∧
    Value.div_value (.integer 4) (.integer 2) = .ok (.float 2) ∧
    Value.div_value (.integer 5) (.integer 2) = .ok (.float (mkRat 5 2)) ∧
    eval_error_of (run_source "let a = 1 / 0;") = some (.abort "Division by zero") :=
  ⟨div_value_ok_is_float, div_value_zero_error, rfl, rfl, rfl⟩

/-- C6 witness: the amended statement applied at `4 / 2` and `1 / 0`. -/
theorem c6_witness :
    (∃ q, Value.float 2 = Value.float q) ∧
    Value.div_value (.integer 1) (.integer 0) = .error "Division by zero" :=
  ⟨c6_division_always_float_zero_aborts.1 (.integer 4) (.integer 2) (.float 2) rfl,
   c6_division_always_float_zero_aborts.2.1 (.integer 1) (.integer 0) 1 rfl rfl⟩

/-- C7: `^` is right-associative while `+` and `*` are left-associative
with `*` binding tighter: `2 ^ 3 ^ 2` parses as `2 ^ (3 ^ 2)` and evaluates
to Float 512, `1 + 2 * 3` parses as `1 + (2 * 3)` and evaluates to Integer
7; the recursive call uses the operator's own precedence when
right-associative, otherwise precedence + 1 (1 for `+`, 2 for `*`, 3 right
for `^` in `operator_predecende`). -/
theorem c7_exponent_right_associative :
    parse_source "2 ^ 3 ^ 2;" = some (.program [.statement
      (.binaryOperation (.literal (.integer 2)) .exponential
        (.binaryOperation (.literal (.integer 3)) .exponential (.literal (.integer 2))))]) ∧
    parse_source "1 + 2 * 3;" = some (.program [.statement
      (.binaryOperation (.literal (.integer 1)) (.additive .add)
        (.binaryOperation (.literal (.integer 2)) (.multiplicative .mul)
          (.literal (.integer 3))))]) ∧
    eval_expr_value (.binaryOperation (.literal (.integer 2)) .exponential
        (.binaryOperation (.literal (.integer 3)) .exponential (.literal (.integer 2)))) =
      some (.float 512) ∧
    eval_expr_value (.binaryOperation (.literal (.integer 1)) (.additive .add)
        (.binaryOperation (.literal (.integer 2)) (.multiplicative .mul)
          (.literal (.integer 3)))) = some (.integer 7) ∧
    (∀ p : Int, next_precedence p true = p) ∧
    (∀ p : Int, next_precedence p false = p + 1) ∧
    (mkToken 0 1 1 .operator (some .exponential) (some "^")).operator_predecende
      = (3, true) ∧
    (mkToken 0 1 1 .operator (some (.additive .add)) (some "+")).operator_predecende
      = (1, false) ∧
    (mkToken 0 1 1 .operator (some (.multiplicative .mul)) (some "*")).operator_predecende
      = (2, false) :=
  ⟨rfl, rfl, rfl, rfl, fun _ => rfl, fun _ => rfl, rfl, rfl, rfl⟩

/-- C8: a user-function call whose body never executes a `return` evaluates
to Integer 0 (the empty return slot defaults); when a `return` executed, the
call evaluates to the value written into the activation's slot.  The first
two conjuncts state the slot read of `evaluate_function_call`
(`exit_function_with_return().unwrap_or(Integer(0))`) for an empty and a
written top slot; the last two run both cases end to end. -/
theorem c8_return_slot_default_zero :
    (∀ (ctx : ExecutionContext) (rest : List (Option Value)),
      ctx.function_depth ≠ 0 → ctx.return_values = none :: rest →
      (ctx.exit_function_with_return).1.getD (Value.integer 0) = Value.integer 0) ∧
    (∀ (ctx : ExecutionContext) (v : Value) (rest : List (Option Value)),
      ctx.function_depth ≠ 0 → ctx.return_values = some v :: rest →
      (ctx.exit_function_with_return).1.getD (Value.integer 0) = v) ∧
    output_of (run_source "func f() \x7b let a = 1; \x7d println(f());") = some "0\n" ∧
    output_of (run_source "func g() \x7b return 5; \x7d println(g());") = some "5\n" :=
  ⟨exit_slot_none, exit_slot_some, rfl, rfl⟩

/-- A context one activation deep whose single return slot holds the given
content (used to witness the C8 slot read). -/
def ctx_with_slot (slot : Option Value) : ExecutionContext :=
  { ExecutionContext.new [] with function_depth := 1, return_values := [slot] }

/-- C8 witness: the slot read at a concrete context with depth 1, once with
an empty slot and once with `Integer 7` written. -/
theorem c8_witness :
    ((ctx_with_slot none).exit_function_with_return).1.getD (Value.integer 0)
      = Value.integer 0 ∧
    ((ctx_with_slot (some (.integer 7))).exit_function_with_return).1.getD (Value.integer 0)
      = Value.integer 7 :=
  ⟨c8_return_slot_default_zero.1 (ctx_with_slot none) [] (by decide) rfl,
   c8_return_slot_default_zero.2.1 (ctx_with_slot (some (.integer 7)))
     (.integer 7) [] (by decide) rfl⟩

/-- C9 counterexample: the claim's own program
`let x = "outer"; { let x = "inner"; } x == "outer"` does not evaluate at
all — a bare `{` block is not a statement of this grammar, so the parser
rejects it with `UnrecognizedToken` at the `{`. -/
theorem c9_counterexample :
    parse_error_of (run_source
        "let x = \x22outer\x22; \x7b let x = \x22inner\x22; \x7d x == \x22outer\x22;") =
      some (.err ⟨.unrecognizedToken ⟨17, 18, 1, .blockStart, none, some "\x7b"⟩⟩) :=
  rfl

/-- C9 (amended): a `let` of an already-bound name in a nested scope binds
only in the child scope and leaves every pre-existing scope record — in
particular the outer binding — unchanged; nested blocks arise as if/else or
function bodies (a bare braced block is not a statement), and after
`let x = "outer"; if (true) { let x = "inner"; }` the expression
`x == "outer"` prints Boolean true. -/
theorem c9_shadowing_is_scoped :
    (∀ (a : ScopeArena) (pid : Nat) (name : String) (v : Value) (i : Nat),
      i < a.scopes.length →
      ((a.new_scope (some pid)).1.define_variable (a.new_scope (some pid)).2 name v).scopes.get? i
        = a.scopes.get? i) ∧
    (∀ (a : ScopeArena) (pid : Nat) (name : String) (v : Value),
      ((a.new_scope (some pid)).1.define_variable
          (a.new_scope (some pid)).2 name v).scopes.get? (a.new_scope (some pid)).2
        = some ⟨some pid, [(name, v)], []⟩) ∧
    output_of (run_source
        "let x = \x22outer\x22; if (true) \x7b let x = \x22inner\x22; \x7d println(x == \x22outer\x22);")
      = some "true\n" :=
  ⟨define_new_scope_preserves, define_new_scope_binds, rfl⟩

/-- C9 witness: the amended statement applied at the root arena, shadowing
`x` in a fresh child of scope 0. -/
theorem c9_witness :
    (((ExecutionContext.new []).scope_arena.new_scope (some 0)).1.define_variable
        ((ExecutionContext.new []).scope_arena.new_scope (some 0)).2 "x"
        (.string "inner")).scopes.get? 0
      = (ExecutionContext.new []).scope_arena.scopes.get? 0 :=
  c9_shadowing_is_scoped.1 (ExecutionContext.new []).scope_arena 0 "x"
    (.string "inner") 0 (by decide)

/-- C10: the two numeric-coercion paths disagree on the empty string — the
native builtin `to_number` maps `String ""` to `Integer 0` (so
`to_number("")` prints "0"), while the internal `Value::to_number` used by
the arithmetic operators aborts with "Unable to convert string '' to
number", so `"" * 2` fails rather than treating the empty string as 0. -/
theorem c10_empty_string_coercion_divergence :
    fn_to_number [.string ""] ⟨"", []⟩ = .ok (.integer 0, ⟨"", []⟩) ∧
    Value.to_number (.string "") =
      .error ("Unable to convert string " ++ squote ++ squote ++ " to number") ∧
    Value.mul_value (.string "") (.integer 2) =
      .error ("Unable to convert string " ++ squote ++ squote ++ " to number") ∧
    output_of (run_source "println(to_number(\x22\x22));") = some "0\n" ∧
    eval_error_of (run_source "let r = \x22\x22 * 2;") =
      some (.abort ("Unable to convert string " ++ squote ++ squote ++ " to number")) :=
  ⟨rfl, rfl, rfl, rfl, rfl⟩

end MathParser
